import Mathlib

/-!
Verification development for the better-hisense-tv controller
(custom_components/better_hisense_tv/tv_controller.py).

The Python controller is shallowly embedded: pure helpers become Lean
functions, the mutable controller object becomes an explicit `Ctrl` state
threaded through each operation, MQTT side effects become an explicit
effect list, and inbound messages / connection outcomes are supplied by an
explicit environment.  Machine integers are modelled as `Nat` with
explicit `% 2 ^ 32` where the MD5 rounds overflow.
-/

namespace Hisense

/-! ## MD5 (model of Python hashlib.md5 over UTF-8 bytes) -/

/-- UTF-8 encoding of a single character, as byte values. -/
def utf8Bytes (c : Char) : List Nat :=
  let n := c.toNat
  if n < 0x80 then [n]
  else if n < 0x800 then [0xC0 + n / 64, 0x80 + n % 64]
  else if n < 0x10000 then [0xE0 + n / 4096, 0x80 + n / 64 % 64, 0x80 + n % 64]
  else [0xF0 + n / 262144, 0x80 + n / 4096 % 64, 0x80 + n / 64 % 64, 0x80 + n % 64]

/-- UTF-8 bytes of a string (model of s.encode("utf-8")). -/
def strBytes (s : String) : List Nat :=
  (s.data.map utf8Bytes).flatten

/-- The 64 MD5 round constants. -/
def md5Ks : List Nat :=
  [0xd76aa478, 0xe8c7b756, 0x242070db, 0xc1bdceee,
   0xf57c0faf, 0x4787c62a, 0xa8304613, 0xfd469501,
   0x698098d8, 0x8b44f7af, 0xffff5bb1, 0x895cd7be,
   0x6b901122, 0xfd987193, 0xa679438e, 0x49b40821,
   0xf61e2562, 0xc040b340, 0x265e5a51, 0xe9b6c7aa,
   0xd62f105d, 0x02441453, 0xd8a1e681, 0xe7d3fbc8,
   0x21e1cde6, 0xc33707d6, 0xf4d50d87, 0x455a14ed,
   0xa9e3e905, 0xfcefa3f8, 0x676f02d9, 0x8d2a4c8a,
   0xfffa3942, 0x8771f681, 0x6d9d6122, 0xfde5380c,
   0xa4beea44, 0x4bdecfa9, 0xf6bb4b60, 0xbebfbc70,
   0x289b7ec6, 0xeaa127fa, 0xd4ef3085, 0x04881d05,
   0xd9d4d039, 0xe6db99e5, 0x1fa27cf8, 0xc4ac5665,
   0xf4292244, 0x432aff97, 0xab9423a7, 0xfc93a039,
   0x655b59c3, 0x8f0ccc92, 0xffeff47d, 0x85845dd1,
   0x6fa87e4f, 0xfe2ce6e0, 0xa3014314, 0x4e0811a1,
   0xf7537e82, 0xbd3af235, 0x2ad7d2bb, 0xeb86d391]

/-- The 64 MD5 per-round left-rotation amounts. -/
def md5Ss : List Nat :=
  [7, 12, 17, 22, 7, 12, 17, 22, 7, 12, 17, 22, 7, 12, 17, 22,
   5, 9, 14, 20, 5, 9, 14, 20, 5, 9, 14, 20, 5, 9, 14, 20,
   4, 11, 16, 23, 4, 11, 16, 23, 4, 11, 16, 23, 4, 11, 16, 23,
   6, 10, 15, 21, 6, 10, 15, 21, 6, 10, 15, 21, 6, 10, 15, 21]

/-- 32-bit left rotation. -/
def md5rotl (x s : Nat) : Nat :=
  (x * 2 ^ s) % 2 ^ 32 + x / 2 ^ (32 - s)

/-- Running MD5 state (four 32-bit words). -/
structure MD5St where
  a : Nat
  b : Nat
  c : Nat
  d : Nat

/-- MD5 initial state. -/
def md5Init : MD5St :=
  { a := 0x67452301, b := 0xefcdab89, c := 0x98badcfe, d := 0x10325476 }

/-- One MD5 round (round index i, message words M). -/
def md5Round (M : List Nat) (st : MD5St) (i : Nat) : MD5St :=
  let fg :=
    if i < 16 then
      ((st.b &&& st.c) ||| ((st.b ^^^ 0xFFFFFFFF) &&& st.d), i)
    else if i < 32 then
      ((st.d &&& st.b) ||| ((st.d ^^^ 0xFFFFFFFF) &&& st.c), (5 * i + 1) % 16)
    else if i < 48 then
      (st.b ^^^ st.c ^^^ st.d, (3 * i + 5) % 16)
    else
      (st.c ^^^ (st.b ||| (st.d ^^^ 0xFFFFFFFF)), (7 * i) % 16)
  let f := (fg.1 + st.a + md5Ks.getD i 0 + M.getD fg.2 0) % 2 ^ 32
  { a := st.d, b := (st.b + md5rotl f (md5Ss.getD i 0)) % 2 ^ 32, c := st.b, d := st.c }

/-- Process one 64-byte chunk, given as sixteen 32-bit words. -/
def md5Chunk (st : MD5St) (M : List Nat) : MD5St :=
  let r := (List.range 64).foldl (md5Round M) st
  { a := (st.a + r.a) % 2 ^ 32, b := (st.b + r.b) % 2 ^ 32,
    c := (st.c + r.c) % 2 ^ 32, d := (st.d + r.d) % 2 ^ 32 }

/-- Little-endian byte decomposition of n into k bytes. -/
def natLEBytes : Nat → Nat → List Nat
  | _, 0 => []
  | n, k + 1 => n % 256 :: natLEBytes (n / 256) k

/-- MD5 padding: 0x80, zeros to 56 mod 64, then the 64-bit bit length. -/
def md5Pad (msg : List Nat) : List Nat :=
  msg ++ [0x80] ++ List.replicate ((119 - msg.length % 64) % 64) 0
      ++ natLEBytes (msg.length * 8 % 2 ^ 64) 8

/-- The sixteen little-endian 32-bit words of a 64-byte chunk. -/
def md5Words (chunk : List Nat) : List Nat :=
  (List.range 16).map fun j =>
    chunk.getD (4 * j) 0 + 256 * chunk.getD (4 * j + 1) 0
      + 65536 * chunk.getD (4 * j + 2) 0 + 16777216 * chunk.getD (4 * j + 3) 0

/-- MD5 digest of a byte list, as 16 bytes. -/
def md5Bytes (msg : List Nat) : List Nat :=
  let padded := md5Pad msg
  let st := (List.range (padded.length / 64)).foldl
    (fun st i => md5Chunk st (md5Words ((padded.drop (64 * i)).take 64))) md5Init
  natLEBytes st.a 4 ++ natLEBytes st.b 4 ++ natLEBytes st.c 4 ++ natLEBytes st.d 4

/-- Lowercase hex digit. -/
def hexDigitLower (n : Nat) : Char :=
  Char.ofNat (if n < 10 then 48 + n else 87 + n)

/-- Model of hashlib.md5(s.encode("utf-8")).hexdigest(): lowercase hex. -/
def md5Hexdigest (s : String) : String :=
  String.mk (((md5Bytes (strBytes s)).map
    fun b => [hexDigitLower (b / 16), hexDigitLower (b % 16)]).flatten)

/-- Model of Python str.upper() (ASCII case mapping). -/
def pyUpper (s : String) : String :=
  String.mk (s.data.map Char.toUpper)

/-! ## Identity derivation (tv_controller.py lines 24-29 and 197-222) -/

/-- Source cross_sum: sum of the decimal digits of n (sum(int(d) for d in str(n))). -/
def cross_sum (n : Nat) : Nat :=
  ((Nat.toDigits 10 n).map fun c => c.toNat - 48).sum

/-- Source string_to_hash: hashlib.md5(s.encode("utf-8")).hexdigest().upper(). -/
def string_to_hash (s : String) : String :=
  pyUpper (md5Hexdigest s)

/-- The identity triple computed by _define_hashes. -/
structure HIdentity where
  username : String
  password : String
  client_id : String
  deriving DecidableEq

/-- Pure core of _define_hashes (tv_controller.py lines 197-222), given the
timestamp int(time.time()) and the MAC address string chosen beforehand. -/
def defineHashes (timestamp : Nat) (mac : String) (new_auth : Bool) : HIdentity :=
  let _first_hash := string_to_hash "&vidaa#^app"
  let second_hash := string_to_hash ("38D65DC30F45109A369A86FCE866A85B$" ++ mac)
  let last_digit_of_cross := cross_sum timestamp % 10
  let third_hash := string_to_hash ("his" ++ toString last_digit_of_cross ++ "h*i&s%e!r^v0i1c9")
  let fourth_hash := string_to_hash (toString timestamp ++ "$" ++ third_hash.take 6)
  { username :=
      if new_auth then "his$" ++ toString (timestamp ^^^ 6239759785777146216)
      else "his$" ++ toString timestamp
    password := fourth_hash
    client_id := mac ++ "$his$" ++ second_hash.take 6 ++ "_vidaacommon_001" }

/-- The password formula as the specification words it: uppercase-hex MD5 of
(now + "$" + first 6 characters of the uppercase-hex MD5 of
("his" + d + "h*i&s%e!r^v0i1c9")), d the digit sum of now mod 10. -/
def specPassword (now : Nat) : String :=
  let d := cross_sum now % 10
  pyUpper (md5Hexdigest (toString now ++ "$"
    ++ (pyUpper (md5Hexdigest ("his" ++ toString d ++ "h*i&s%e!r^v0i1c9"))).take 6))

/-- The username formula as the specification words it. -/
def specUsername (now : Nat) (isReauth : Bool) : String :=
  if isReauth then "his$" ++ toString (now ^^^ 6239759785777146216)
  else "his$" ++ toString now

/-- The clientId formula as the specification words it. -/
def specClientId (mac : String) : String :=
  mac ++ "$his$"
    ++ (pyUpper (md5Hexdigest ("38D65DC30F45109A369A86FCE866A85B$" ++ mac))).take 6
    ++ "_vidaacommon_001"

/-! ## JSON values (model of Python json.loads / json.dumps)

Numeric literals are modelled as integers only; the controller never
produces or consumes fractional JSON numbers. -/

/-- JSON values as produced by json.loads.  Objects are Python dicts:
insertion-ordered association lists with unique keys. -/
inductive JVal where
  | jnull
  | jbool (b : Bool)
  | jnum (n : Int)
  | jstr (s : String)
  | jarr (xs : List JVal)
  | jobj (fields : List (String × JVal))

/-- Python dict lookup returning an option (model of dict.get(k)). -/
def dictGet (fs : List (String × JVal)) (k : String) : Option JVal :=
  (fs.find? fun p => p.1 == k).map fun p => p.2

/-- Python dict assignment d[k] = v: overwrite in place or append. -/
def dictSet (fs : List (String × JVal)) (k : String) (v : JVal) : List (String × JVal) :=
  if fs.any (fun p => p.1 == k) then fs.map fun p => if p.1 == k then (k, v) else p
  else fs ++ [(k, v)]

/-- Build a Python dict from a pair list (later duplicates win). -/
def dictFromPairs (ps : List (String × JVal)) : List (String × JVal) :=
  ps.foldl (fun d kv => dictSet d kv.1 kv.2) []

/-- Python truthiness of a JSON value. -/
def jTruthy : JVal → Bool
  | .jnull => false
  | .jbool b => b
  | .jnum n => n != 0
  | .jstr s => s != ""
  | .jarr xs => !xs.isEmpty
  | .jobj fs => !fs.isEmpty

/-- Python truthiness of an optional JSON value (None is falsy). -/
def optTruthy : Option JVal → Bool
  | none => false
  | some v => jTruthy v

/-- JSON whitespace (also what json.loads skips between tokens). -/
def jsonWs (c : Char) : Bool :=
  c == ' ' || c == '\t' || c == '\n' || c == '\r'

/-- Drop leading JSON whitespace. -/
def skipWs : List Char → List Char
  | [] => []
  | c :: cs => if jsonWs c then skipWs cs else c :: cs

/-- Parse the body of a JSON string literal (after the opening quote). -/
def parseJStrAux : List Char → List Char → Option (String × List Char)
  | [], _ => none
  | '"' :: rest, acc => some (String.mk acc.reverse, rest)
  | '\\' :: e :: rest, acc =>
    let esc : Option Char :=
      if e == '"' then some '"'
      else if e == '\\' then some '\\'
      else if e == '/' then some '/'
      else if e == 'n' then some '\n'
      else if e == 't' then some '\t'
      else if e == 'r' then some '\r'
      else none
    match esc with
    | some c => parseJStrAux rest (c :: acc)
    | none => none
  | '\\' :: [], _ => none
  | c :: rest, acc => parseJStrAux rest (c :: acc)

/-- Split a leading run of decimal digits from the rest. -/
def takeDigits : List Char → List Char × List Char
  | [] => ([], [])
  | c :: cs =>
    if c.isDigit then
      let p := takeDigits cs
      (c :: p.1, p.2)
    else ([], c :: cs)

/-- Numeric value of a digit run. -/
def digitsToNat (ds : List Char) : Nat :=
  ds.foldl (fun acc c => acc * 10 + (c.toNat - 48)) 0

/-- Parsing mode: a single value, array items, or object members. -/
inductive PMode where
  | val
  | arrItems
  | objItems

/-- Parser output for each mode. -/
inductive POut where
  | v (x : JVal)
  | items (xs : List JVal)
  | fields (fs : List (String × JVal))

/-- Fuel-driven recursive-descent JSON parser (model of json.loads). -/
def parseP : Nat → PMode → List Char → Option (POut × List Char)
  | 0, _, _ => none
  | fuel + 1, PMode.val, cs0 =>
    (match skipWs cs0 with
     | 'n' :: 'u' :: 'l' :: 'l' :: r => some (POut.v JVal.jnull, r)
     | 't' :: 'r' :: 'u' :: 'e' :: r => some (POut.v (JVal.jbool true), r)
     | 'f' :: 'a' :: 'l' :: 's' :: 'e' :: r => some (POut.v (JVal.jbool false), r)
     | '"' :: r =>
       (match parseJStrAux r [] with
        | some (s, r2) => some (POut.v (JVal.jstr s), r2)
        | none => none)
     | '[' :: r =>
       (match skipWs r with
        | ']' :: r2 => some (POut.v (JVal.jarr []), r2)
        | r1 =>
          match parseP fuel PMode.arrItems r1 with
          | some (POut.items xs, r2) => some (POut.v (JVal.jarr xs), r2)
          | _ => none)
     | '\x7b' :: r =>
       (match skipWs r with
        | '\x7d' :: r2 => some (POut.v (JVal.jobj []), r2)
        | r1 =>
          match parseP fuel PMode.objItems r1 with
          | some (POut.fields fs, r2) => some (POut.v (JVal.jobj (dictFromPairs fs)), r2)
          | _ => none)
     | '-' :: r =>
       (match takeDigits r with
        | ([], _) => none
        | (ds, r2) => some (POut.v (JVal.jnum (-(digitsToNat ds : Int))), r2))
     | c :: r =>
       if c.isDigit then
         match takeDigits (c :: r) with
         | (ds, r2) => some (POut.v (JVal.jnum (digitsToNat ds)), r2)
       else none
     | [] => none)
  | fuel + 1, PMode.arrItems, cs =>
    (match parseP fuel PMode.val cs with
     | some (POut.v x, r) =>
       (match skipWs r with
        | ',' :: r2 =>
          (match parseP fuel PMode.arrItems r2 with
           | some (POut.items xs, r3) => some (POut.items (x :: xs), r3)
           | _ => none)
        | ']' :: r2 => some (POut.items [x], r2)
        | _ => none)
     | _ => none)
  | fuel + 1, PMode.objItems, cs =>
    (match skipWs cs with
     | '"' :: r =>
       (match parseJStrAux r [] with
        | none => none
        | some (k, r1) =>
          match skipWs r1 with
          | ':' :: r2 =>
            (match parseP fuel PMode.val r2 with
             | some (POut.v x, r3) =>
               (match skipWs r3 with
                | ',' :: r4 =>
                  (match parseP fuel PMode.objItems r4 with
                   | some (POut.fields fs, r5) => some (POut.fields ((k, x) :: fs), r5)
                   | _ => none)
                | '\x7d' :: r4 => some (POut.fields [(k, x)], r4)
                | _ => none)
             | _ => none)
          | _ => none)
     | _ => none)

/-- Model of json.loads: parse a complete JSON document or fail. -/
def jsonLoads (s : String) : Option JVal :=
  match parseP (s.length + 1) PMode.val s.data with
  | some (POut.v x, r) => if skipWs r == [] then some x else none
  | _ => none

/-- Escape a character for a JSON string literal. -/
def jEscape (c : Char) : List Char :=
  if c == '"' then ['\\', '"'] else if c == '\\' then ['\\', '\\'] else [c]

/-- JSON string literal for s. -/
def jStrLit (s : String) : String :=
  "\"" ++ String.mk ((s.data.map jEscape).flatten) ++ "\""

/-- Fuel-driven model of json.dumps with default separators. -/
def pyDumpsF : Nat → JVal → String
  | _, .jnull => "null"
  | _, .jbool true => "true"
  | _, .jbool false => "false"
  | _, .jnum n => toString n
  | _, .jstr s => jStrLit s
  | 0, _ => ""
  | f + 1, .jarr xs => "[" ++ String.intercalate ", " (xs.map (pyDumpsF f)) ++ "]"
  | f + 1, .jobj fs =>
    "\x7b" ++ String.intercalate ", "
      (fs.map fun kv => jStrLit kv.1 ++ ": " ++ pyDumpsF f kv.2) ++ "\x7d"

/-- Model of json.dumps (nesting depth of controller payloads is below 16). -/
def pyDumps (v : JVal) : String :=
  pyDumpsF 16 v

/-- Python str.strip() whitespace set. -/
def pyWs (c : Char) : Bool :=
  c == ' ' || c == '\t' || c == '\n' || c == '\r' || c == '\x0b' || c == '\x0c'

/-- Model of Python str.strip(). -/
def pyStrip (s : String) : String :=
  String.mk (((s.data.dropWhile pyWs).reverse.dropWhile pyWs).reverse)

/-! ## Controller state and effects

The HisenseTVController object becomes an explicit `Ctrl` record; the paho
MQTT client becomes the `MClient` record holding the credentials it was
built with; MQTT side effects become an `Eff` list; inbound messages and
the broker connection outcome are supplied by an `Env`. -/

/-- The credentials a paho client was built with (_build_client arguments). -/
structure MClient where
  username : String
  password : String
  clientId : String
  deriving DecidableEq

/-- Python exceptions raised by the controller. -/
inductive PErr where
  | notAuthenticated
  | assertionError
  | connectTimeout
  | awaitTimeout
  | jsonDecodeError
  | keyError (k : String)
  | typeError
  | unexpectedAuthPayload (payload : String)
  deriving DecidableEq

/-- Observable MQTT side effects. -/
inductive Eff where
  | connect (username password clientId : String)
  | disconnect
  | subscribe (topic : String)
  | publish (topic : String) (payload : Option String)
  deriving DecidableEq

/-- Outcome of one await on a topic: the next message payload or a timeout. -/
inductive ReplyEv where
  | timeout
  | msg (payload : String)

/-- Environment: current wall-clock time, whether a broker connect attempt
succeeds, and the payload (or timeout) each awaited topic produces. -/
structure Env where
  now : Nat
  connectOk : Bool
  reply : String → ReplyEv

/-- The mutable fields of HisenseTVController (lines 61-92). -/
structure Ctrl where
  accesstoken : Option String := none
  accesstoken_time : Option Nat := none
  accesstoken_duration_day : Option Nat := none
  refreshtoken : Option String := none
  refreshtoken_time : Option Nat := none
  refreshtoken_duration_day : Option Nat := none
  client_id : Option String := none
  username : Option String := none
  password : Option String := none
  authenticated : Bool := false
  client : Option MClient := none
  is_connected : Bool := false
  subscriptions : List String := []
  topicTVUIBasepath : Option String := none
  topicTVPSBasepath : Option String := none
  topicMobiBasepath : Option String := none
  topicBrcsBasepath : Option String := none
  topicRemoBasepath : Option String := none
  deriving DecidableEq

/-- Result of running one controller coroutine: outcome, final state, and
the MQTT effects performed (state and effects also on an exception, since
Python exceptions leave prior mutations in place). -/
structure RunResult (α : Type) where
  res : Except PErr α
  st : Ctrl
  effs : List Eff

/-- Python truthiness of an Optional[str]. -/
def truthyS : Option String → Bool
  | none => false
  | some s => s != ""

/-- Python truthiness of an Optional[int] (modelled as Nat). -/
def truthyN : Option Nat → Bool
  | none => false
  | some n => n != 0

/-- Interpolation of an Optional[str] into an f-string (None prints as "None"). -/
def fstr : Option String → String
  | none => "None"
  | some s => s

/-- The string held by an Optional[str] known to be set (guarded by asserts). -/
def sget (o : Option String) : String :=
  o.getD ""

/-- A Python optional string as a JSON value (None becomes null). -/
def optJ : Option String → JVal
  | none => JVal.jnull
  | some s => JVal.jstr s

/-- Python == between an optional JSON value and a string literal: true only
for an equal string (comparisons across types are False, never an error). -/
def pyEqStr : Option JVal → String → Bool
  | some (JVal.jstr s), t => s == t
  | _, _ => false

/-- Expected string shape of a JSON token value. -/
def asStr : JVal → Option String
  | .jstr s => some s
  | _ => none

/-- Expected non-negative integer shape of a JSON time or day-count value. -/
def asNat : JVal → Option Nat
  | .jnum n => if n < 0 then none else some n.toNat
  | _ => none

/-! ## Transport and correlation primitives -/

/-- Model of _subscribe (lines 163-171): subscribing twice is a no-op. -/
def subscribeOp (st : Ctrl) (topic : String) : Ctrl × List Eff :=
  if st.subscriptions.contains topic then (st, [])
  else ({ st with subscriptions := st.subscriptions ++ [topic] }, [Eff.subscribe topic])

/-- Model of ensure_connected (lines 149-161): build and connect a fresh
client when there is none or the connection is down, then wait for the
connection acknowledgement (env.connectOk decides the wait outcome).  The
connected-event flag is identified with is_connected. -/
def ensure_connected (st : Ctrl) (env : Env) (username password client_id : String) :
    RunResult Unit :=
  let build := st.client.isNone || !st.is_connected
  let st1 := if build then { st with client := some ⟨username, password, client_id⟩ } else st
  let effs := if build then [Eff.connect username password client_id] else []
  if st1.is_connected then
    { res := .ok (), st := st1, effs := effs }
  else if env.connectOk then
    { res := .ok (), st := { st1 with is_connected := true }, effs := effs }
  else
    { res := .error .connectTimeout, st := st1, effs := effs }

/-- Model of _await_topic_once seen from its caller (lines 180-195):
subscribe to the topic, then either return the next payload on it or fail
with a timeout.  (The waiter-table bookkeeping inside _await_topic_once is
modelled separately by `corrRegister` and friends below.) -/
def await_topic_once (st : Ctrl) (env : Env) (topic : String) : RunResult String :=
  let p := subscribeOp st topic
  match env.reply topic with
  | .msg payload => { res := .ok payload, st := p.1, effs := p.2 }
  | .timeout => { res := .error .awaitTimeout, st := p.1, effs := p.2 }

/-! ## Credentials -/

/-- Model of _apply_credentials (lines 232-239).  The six assignments run
in order; a missing key raises KeyError and leaves the fields assigned so
far in place.  Token values are modelled at their expected types (strings
for tokens, naturals for times and day counts); a differently-typed value
is reported as a type error. -/
def apply_credentials (st : Ctrl) (credentials : List (String × JVal)) :
    Option PErr × Ctrl :=
  match dictGet credentials "accesstoken" with
  | none => (some (.keyError "accesstoken"), st)
  | some v1 =>
    match asStr v1 with
    | none => (some .typeError, st)
    | some a1 =>
      let st := { st with accesstoken := some a1 }
      match dictGet credentials "accesstoken_time" with
      | none => (some (.keyError "accesstoken_time"), st)
      | some v2 =>
        match asNat v2 with
        | none => (some .typeError, st)
        | some a2 =>
          let st := { st with accesstoken_time := some a2 }
          match dictGet credentials "accesstoken_duration_day" with
          | none => (some (.keyError "accesstoken_duration_day"), st)
          | some v3 =>
            match asNat v3 with
            | none => (some .typeError, st)
            | some a3 =>
              let st := { st with accesstoken_duration_day := some a3 }
              match dictGet credentials "refreshtoken" with
              | none => (some (.keyError "refreshtoken"), st)
              | some v4 =>
                match asStr v4 with
                | none => (some .typeError, st)
                | some a4 =>
                  let st := { st with refreshtoken := some a4 }
                  match dictGet credentials "refreshtoken_time" with
                  | none => (some (.keyError "refreshtoken_time"), st)
                  | some v5 =>
                    match asNat v5 with
                    | none => (some .typeError, st)
                    | some a5 =>
                      let st := { st with refreshtoken_time := some a5 }
                      match dictGet credentials "refreshtoken_duration_day" with
                      | none => (some (.keyError "refreshtoken_duration_day"), st)
                      | some v6 =>
                        match asNat v6 with
                        | none => (some .typeError, st)
                        | some a6 =>
                          (none, { st with refreshtoken_duration_day := some a6 })

/-- The token-issuance reply topic a controller listens on. -/
def tokenTopicOf (st : Ctrl) : String :=
  fstr st.topicMobiBasepath ++ "platform_service/data/tokenissuance"

/-- Connection phase of refresh_token (lines 332-342): assert the stored
identity, tear down any existing client, and reconnect with the refresh
token substituted for the MQTT password. -/
def refresh_token_connect (st : Ctrl) (env : Env) : RunResult Unit :=
  if !(truthyS st.client_id && truthyS st.username && truthyS st.refreshtoken) then
    { res := .error .assertionError, st := st, effs := [] }
  else
    let tearEffs := if st.client.isSome then [Eff.disconnect] else []
    let st1 :=
      if st.client.isSome then
        { st with client := none, is_connected := false, subscriptions := [] }
      else st
    let r := ensure_connected st1 env (sget st1.username) (sget st1.refreshtoken)
      (sget st1.client_id)
    { res := r.res, st := r.st, effs := tearEffs ++ r.effs }

/-- Request-and-apply phase of refresh_token (lines 344-357): subscribe to
the token topic, publish the gettoken request carrying the refresh token,
await and parse the reply, merge in client_id/username/password, and apply
the credentials. -/
def refresh_token_finish (st : Ctrl) (env : Env) : RunResult String :=
  let token_topic := tokenTopicOf st
  let p1 := subscribeOp st token_topic
  let pubEff := Eff.publish
    ("/remoteapp/tv/platform_service/" ++ sget st.client_id ++ "/data/gettoken")
    (some (pyDumps (JVal.jobj [("refreshtoken", JVal.jstr (sget st.refreshtoken))])))
  let aw := await_topic_once p1.1 env token_topic
  let effs := p1.2 ++ [pubEff] ++ aw.effs
  match aw.res with
  | .error e => { res := .error e, st := aw.st, effs := effs }
  | .ok payload =>
    match jsonLoads payload with
    | none => { res := .error .jsonDecodeError, st := aw.st, effs := effs }
    | some (JVal.jobj fields) =>
      let credentials := dictSet (dictSet (dictSet fields
        "client_id" (optJ aw.st.client_id))
        "username" (optJ aw.st.username))
        "password" (optJ aw.st.password)
      let ap := apply_credentials aw.st credentials
      match ap.1 with
      | some e => { res := .error e, st := ap.2, effs := effs }
      | none =>
        let stF := { ap.2 with authenticated := true }
        { res := .ok (sget stF.accesstoken), st := stF, effs := effs }
    | some _ => { res := .error .typeError, st := aw.st, effs := effs }

/-- Model of refresh_token (lines 330-357): the connection phase followed,
when it succeeds, by the token request-and-apply phase. -/
def refresh_token (st : Ctrl) (env : Env) : RunResult String :=
  let r := refresh_token_connect st env
  match r.res with
  | .error e => { res := .error e, st := r.st, effs := r.effs }
  | .ok _ =>
    let f := refresh_token_finish r.st env
    { res := f.res, st := f.st, effs := r.effs ++ f.effs }

/-- Model of check_and_refresh_token (lines 360-376): return the stored
access token while now is at most issue time plus validity days times
86400 seconds, otherwise run refresh_token. -/
def check_and_refresh_token (st : Ctrl) (env : Env) : RunResult String :=
  if !(truthyS st.accesstoken && truthyN st.accesstoken_time
      && truthyN st.accesstoken_duration_day) then
    { res := .error .assertionError, st := st, effs := [] }
  else
    let exp := (st.accesstoken_time.getD 0) + (st.accesstoken_duration_day.getD 0) * 24 * 60 * 60
    if env.now ≤ exp then
      { res := .ok (sget st.accesstoken), st := st, effs := [] }
    else
      refresh_token st env

/-- Model of connect_with_access_token (lines 378-399): a no-op whenever a
connection is up, otherwise tear down any client and reconnect with the
access token as MQTT password. -/
def connect_with_access_token (st : Ctrl) (env : Env) : RunResult Unit :=
  if !(truthyS st.username && truthyS st.client_id && truthyS st.accesstoken) then
    { res := .error .assertionError, st := st, effs := [] }
  else if st.is_connected && st.client.isSome then
    { res := .ok (), st := st, effs := [] }
  else
    let tearEffs := if st.client.isSome then [Eff.disconnect] else []
    let st1 :=
      if st.client.isSome then
        { st with client := none, is_connected := false, subscriptions := [] }
      else st
    let r := ensure_connected st1 env (sget st1.username) (sget st1.accesstoken)
      (sget st1.client_id)
    match r.res with
    | .ok _ => { res := .ok (), st := { r.st with is_connected := true }, effs := tearEffs ++ r.effs }
    | .error e =>
      { res := .error e, st := { r.st with is_connected := false }, effs := tearEffs ++ r.effs }

/-! ## Query and command plumbing -/

/-- Model of _get_info (lines 401-415): guard on a stored access token,
refresh and connect as needed, subscribe, publish the request, await the
reply, and decode it as JSON, returning None when decoding fails. -/
def get_info (st : Ctrl) (env : Env) (callback_topic subscribe_topic publish_topic : String) :
    RunResult (Option JVal) :=
  if truthyS st.accesstoken then
    let r1 := check_and_refresh_token st env
    match r1.res with
    | .error e => { res := .error e, st := r1.st, effs := r1.effs }
    | .ok _ =>
      let r2 := connect_with_access_token r1.st env
      match r2.res with
      | .error e => { res := .error e, st := r2.st, effs := r1.effs ++ r2.effs }
      | .ok _ =>
        let p1 := subscribeOp r2.st subscribe_topic
        let aw := await_topic_once p1.1 env callback_topic
        let effs := r1.effs ++ r2.effs ++ p1.2 ++ [Eff.publish publish_topic none] ++ aw.effs
        match aw.res with
        | .error e => { res := .error e, st := aw.st, effs := effs }
        | .ok payload =>
          match jsonLoads payload with
          | some j => { res := .ok (some j), st := aw.st, effs := effs }
          | none => { res := .ok none, st := aw.st, effs := effs }
  else
    { res := .error .notAuthenticated, st := st, effs := [] }

/-- Model of _send_command (lines 417-423): guard on a stored access token,
refresh and connect as needed, then publish the command. -/
def send_command (st : Ctrl) (env : Env) (publish_topic : String) (command : Option String) :
    RunResult Unit :=
  if truthyS st.accesstoken then
    let r1 := check_and_refresh_token st env
    match r1.res with
    | .error e => { res := .error e, st := r1.st, effs := r1.effs }
    | .ok _ =>
      let r2 := connect_with_access_token r1.st env
      match r2.res with
      | .error e => { res := .error e, st := r2.st, effs := r1.effs ++ r2.effs }
      | .ok _ =>
        { res := .ok (), st := r2.st,
          effs := r1.effs ++ r2.effs ++ [Eff.publish publish_topic command] }
  else
    { res := .error .notAuthenticated, st := st, effs := [] }

/-- Model of get_tv_state (lines 425-429). -/
def get_tv_state (st : Ctrl) (env : Env) : RunResult (Option JVal) :=
  let callback := fstr st.topicBrcsBasepath ++ "ui_service/state"
  get_info st env callback callback (fstr st.topicTVUIBasepath ++ "actions/gettvstate")

/-- Model of get_source_list (lines 431-435). -/
def get_source_list (st : Ctrl) (env : Env) : RunResult (Option JVal) :=
  let callback := fstr st.topicMobiBasepath ++ "ui_service/data/sourcelist"
  get_info st env callback callback (fstr st.topicTVUIBasepath ++ "actions/sourcelist")

/-- Model of get_volume (lines 437-441). -/
def get_volume (st : Ctrl) (env : Env) : RunResult (Option JVal) :=
  let callback := fstr st.topicBrcsBasepath ++ "platform_service/actions/volumechange"
  get_info st env callback callback (fstr st.topicTVPSBasepath ++ "actions/getvolume")

/-- Model of get_app_list (lines 443-447). -/
def get_app_list (st : Ctrl) (env : Env) : RunResult (Option JVal) :=
  let callback := fstr st.topicMobiBasepath ++ "ui_service/data/applist"
  get_info st env callback callback (fstr st.topicTVUIBasepath ++ "actions/applist")

/-- Model of power_cycle_tv (lines 449-451). -/
def power_cycle_tv (st : Ctrl) (env : Env) : RunResult Unit :=
  send_command st env (fstr st.topicRemoBasepath ++ "actions/sendkey") (some "KEY_POWER")

/-- Shared shape of the device-off short circuit: given the value returned
by get_tv_state, decide between returning False (falsy state or statetype
fake_sleep_0) and running the command continuation. -/
def offCheck (stateOpt : Option JVal) : Except PErr Bool :=
  if !optTruthy stateOpt then .ok false
  else
    match stateOpt with
    | some (JVal.jobj fields) =>
      if pyEqStr (dictGet fields "statetype") "fake_sleep_0" then .ok false
      else .ok true
    | _ => .error .typeError

/-- Model of send_key (lines 453-463). -/
def send_key (st : Ctrl) (env : Env) (key : String) : RunResult Bool :=
  let r := get_tv_state st env
  match r.res with
  | .error e => { res := .error e, st := r.st, effs := r.effs }
  | .ok stateOpt =>
    match offCheck stateOpt with
    | .error e => { res := .error e, st := r.st, effs := r.effs }
    | .ok false => { res := .ok false, st := r.st, effs := r.effs }
    | .ok true =>
      let r2 := send_command r.st env (fstr r.st.topicRemoBasepath ++ "actions/sendkey") (some key)
      match r2.res with
      | .error e => { res := .error e, st := r2.st, effs := r.effs ++ r2.effs }
      | .ok _ => { res := .ok true, st := r2.st, effs := r.effs ++ r2.effs }

/-- Model of change_source (lines 465-476); source_id may be str or int. -/
def change_source (st : Ctrl) (env : Env) (source_id : JVal) : RunResult Bool :=
  let r := get_tv_state st env
  match r.res with
  | .error e => { res := .error e, st := r.st, effs := r.effs }
  | .ok stateOpt =>
    match offCheck stateOpt with
    | .error e => { res := .error e, st := r.st, effs := r.effs }
    | .ok false => { res := .ok false, st := r.st, effs := r.effs }
    | .ok true =>
      let cmd := pyDumps (JVal.jobj [("sourceid", source_id)])
      let r2 := send_command r.st env (fstr r.st.topicTVUIBasepath ++ "actions/changesource")
        (some cmd)
      match r2.res with
      | .error e => { res := .error e, st := r2.st, effs := r.effs ++ r2.effs }
      | .ok _ => { res := .ok true, st := r2.st, effs := r.effs ++ r2.effs }

/-- Model of change_volume (lines 478-488). -/
def change_volume (st : Ctrl) (env : Env) (volume : Int) : RunResult Bool :=
  let r := get_tv_state st env
  match r.res with
  | .error e => { res := .error e, st := r.st, effs := r.effs }
  | .ok stateOpt =>
    match offCheck stateOpt with
    | .error e => { res := .error e, st := r.st, effs := r.effs }
    | .ok false => { res := .ok false, st := r.st, effs := r.effs }
    | .ok true =>
      let r2 := send_command r.st env (fstr r.st.topicTVPSBasepath ++ "actions/changevolume")
        (some (toString volume))
      match r2.res with
      | .error e => { res := .error e, st := r2.st, effs := r.effs ++ r2.effs }
      | .ok _ => { res := .ok true, st := r2.st, effs := r.effs ++ r2.effs }

/-- The name-resolution loop of launch_app (lines 497-505): first entry
whose name, uppercased, equals the requested name uppercased; yields its
appId and url values and the resolved name. -/
def findAppLoop : List JVal → String → Except PErr (Option (Option JVal × Option JVal × String))
  | [], _ => .ok none
  | app :: rest, app_name =>
    match app with
    | JVal.jobj fields =>
      match dictGet fields "name" with
      | some (JVal.jstr s) =>
        if pyUpper s == pyUpper app_name then
          .ok (some (dictGet fields "appId", dictGet fields "url", s))
        else findAppLoop rest app_name
      | none =>
        if pyUpper "" == pyUpper app_name then
          .ok (some (dictGet fields "appId", dictGet fields "url", app_name))
        else findAppLoop rest app_name
      | some _ => .error .typeError
    | _ => .error .typeError

/-- Model of launch_app (lines 490-522). -/
def launch_app (st : Ctrl) (env : Env) (app_name : String) (app_list0 : Option JVal) :
    RunResult Bool :=
  let fetch : RunResult (Option JVal) :=
    if !optTruthy app_list0 then get_app_list st env
    else { res := .ok app_list0, st := st, effs := [] }
  match fetch.res with
  | .error e => { res := .error e, st := fetch.st, effs := fetch.effs }
  | .ok lst =>
    if !optTruthy lst then { res := .ok false, st := fetch.st, effs := fetch.effs }
    else
      match lst with
      | some (JVal.jarr apps) =>
        match findAppLoop apps app_name with
        | .error e => { res := .error e, st := fetch.st, effs := fetch.effs }
        | .ok found =>
          let app_id : Option JVal := (found.map fun f => f.1).getD none
          let app_url : Option JVal := (found.map fun f => f.2.1).getD none
          let resolved_name : String := (found.map fun f => f.2.2).getD app_name
          if !optTruthy app_id || !optTruthy app_url then
            { res := .ok false, st := fetch.st, effs := fetch.effs }
          else
            let r := get_tv_state fetch.st env
            match r.res with
            | .error e => { res := .error e, st := r.st, effs := fetch.effs ++ r.effs }
            | .ok stateOpt =>
              match offCheck stateOpt with
              | .error e => { res := .error e, st := r.st, effs := fetch.effs ++ r.effs }
              | .ok false => { res := .ok false, st := r.st, effs := fetch.effs ++ r.effs }
              | .ok true =>
                let cmd := pyDumps (JVal.jobj
                  [("appId", app_id.getD JVal.jnull), ("name", JVal.jstr resolved_name),
                   ("url", app_url.getD JVal.jnull)])
                let r2 := send_command r.st env
                  (fstr r.st.topicTVUIBasepath ++ "actions/launchapp") (some cmd)
                match r2.res with
                | .error e =>
                  { res := .error e, st := r2.st, effs := fetch.effs ++ r.effs ++ r2.effs }
                | .ok _ =>
                  { res := .ok true, st := r2.st, effs := fetch.effs ++ r.effs ++ r2.effs }
      | _ => { res := .error .typeError, st := fetch.st, effs := fetch.effs }

/-- Model of the app-connect acknowledgement check in request_auth_code
(lines 263-265): the payload awaited on the mobile authentication topic is
accepted iff, after str.strip(), it equals the two-character payload of a
double quote pair; any other payload raises a RuntimeError. -/
def authAckCheck (payload : String) : Except PErr Unit :=
  if pyStrip payload != "\"\"" then .error (.unexpectedAuthPayload payload)
  else .ok ()

/-! ## Correlation layer: the per-topic waiter table

_topic_waiters maps a topic to the current asyncio future; each future is
given a fresh numeric identity.  A future is pending, cancelled, or
resolved with a payload; cancelled and resolved both count as done.  The
operations the Python code performs on this table are:

* `corrRegister` — head of _await_topic_once (lines 184-188): cancel any
  not-done waiter for the topic, then install a fresh future;
* `corrDeliver` — _on_message (lines 145-147): resolve the registered
  waiter with the payload when present and not done;
* `corrUnregister` — the finally block of _await_topic_once (line 195):
  pop the topic entry, whichever future it currently holds;
* `corrCancel` — asyncio.wait_for cancelling a given future on timeout. -/

/-- Future state: pending, cancelled, or resolved with a payload.  No
future ever carries an exception (set_exception is never called). -/
inductive WaiterSt where
  | pending
  | cancelled
  | resolved (payload : String)
  deriving DecidableEq

/-- A future that is done (cancelled or resolved). -/
def WaiterSt.done : WaiterSt → Bool
  | .pending => false
  | _ => true

/-- Correlation state: the topic table, the state of every future created
so far (with the topic it was created for), and the next fresh id. -/
structure CorrState where
  table : List (String × Nat)
  status : List (Nat × String × WaiterSt)
  next : Nat
  deriving DecidableEq

/-- Initial correlation state: no waiters. -/
def corrInit : CorrState :=
  { table := [], status := [], next := 0 }

/-- Current future id registered for a topic. -/
def tableGet (t : List (String × Nat)) (k : String) : Option Nat :=
  (t.find? fun p => p.1 == k).map fun p => p.2

/-- Register or replace the future id for a topic. -/
def tableSet (t : List (String × Nat)) (k : String) (v : Nat) : List (String × Nat) :=
  if t.any (fun p => p.1 == k) then t.map fun p => if p.1 == k then (k, v) else p
  else t ++ [(k, v)]

/-- Pop a topic entry (dict.pop(topic, None)). -/
def tableDel (t : List (String × Nat)) (k : String) : List (String × Nat) :=
  t.filter fun p => p.1 != k

/-- Look up the state of future i. -/
def stGet (s : List (Nat × String × WaiterSt)) (i : Nat) : Option WaiterSt :=
  (s.find? fun e => e.1 == i).map fun e => e.2.2

/-- Overwrite the state of future i. -/
def stSet (s : List (Nat × String × WaiterSt)) (i : Nat) (w : WaiterSt) :
    List (Nat × String × WaiterSt) :=
  s.map fun e => if e.1 == i then (e.1, e.2.1, w) else e

/-- Cancellation of the current waiter of a topic if it is not done
(lines 184-185 of _await_topic_once). -/
def cancelCurrent (cs : CorrState) (topic : String) : List (Nat × String × WaiterSt) :=
  match tableGet cs.table topic with
  | some i =>
    match stGet cs.status i with
    | some WaiterSt.pending => stSet cs.status i WaiterSt.cancelled
    | _ => cs.status
  | none => cs.status

/-- Model of lines 184-188 of _await_topic_once: if the topic has a waiter
that is not done, cancel it; then create a fresh future and make it the
topic's unique registered waiter.  Returns the fresh future's id. -/
def corrRegister (cs : CorrState) (topic : String) : CorrState × Nat :=
  let i := cs.next
  ({ table := tableSet cs.table topic i,
     status := cancelCurrent cs topic ++ [(i, topic, WaiterSt.pending)],
     next := i + 1 }, i)

/-- Model of _on_message (lines 145-147): a message on a topic resolves the
registered waiter with the payload when one is present and not done; with
no registered waiter the message is dropped. -/
def corrDeliver (cs : CorrState) (topic : String) (payload : String) : CorrState :=
  match tableGet cs.table topic with
  | some i =>
    match stGet cs.status i with
    | some WaiterSt.pending => { cs with status := stSet cs.status i (WaiterSt.resolved payload) }
    | _ => cs
  | none => cs

/-- Model of the finally block of _await_topic_once (line 195): pop the
topic entry from the table, whichever future it currently holds. -/
def corrUnregister (cs : CorrState) (topic : String) : CorrState :=
  { cs with table := tableDel cs.table topic }

/-- Model of asyncio.wait_for cancelling its future on timeout. -/
def corrCancel (cs : CorrState) (i : Nat) : CorrState :=
  match stGet cs.status i with
  | some WaiterSt.pending => { cs with status := stSet cs.status i WaiterSt.cancelled }
  | _ => cs

/-- The operations the Python code performs on the waiter table. -/
inductive CorrOp where
  | register (topic : String)
  | deliver (topic : String) (payload : String)
  | unregister (topic : String)
  | cancel (i : Nat)

/-- One correlation-layer step. -/
def corrStep (cs : CorrState) : CorrOp → CorrState
  | .register t => (corrRegister cs t).1
  | .deliver t p => corrDeliver cs t p
  | .unregister t => corrUnregister cs t
  | .cancel i => corrCancel cs i

/-- Run a sequence of correlation-layer operations from a state. -/
def corrRunFrom (cs : CorrState) (ops : List CorrOp) : CorrState :=
  ops.foldl corrStep cs

/-- Run a sequence of correlation-layer operations from the initial state. -/
def corrRun (ops : List CorrOp) : CorrState :=
  corrRunFrom corrInit ops

/-- A status entry that is pending for a given topic. -/
def pendingFor (topic : String) (e : Nat × String × WaiterSt) : Bool :=
  e.2.1 == topic && !e.2.2.done

/-- The number of live (pending) waiters a topic has in the table: zero or
one, since the table is a map and entries are replaced. -/
def liveTableWaiters (cs : CorrState) (topic : String) : Nat :=
  match tableGet cs.table topic with
  | none => 0
  | some i =>
    match stGet cs.status i with
    | some WaiterSt.pending => 1
    | _ => 0

/-- Well-formedness of the correlation state: every future id created so
far is below the fresh-id counter. -/
def corrWF (cs : CorrState) : Prop :=
  ∀ e ∈ cs.status, e.1 < cs.next

/-! ## Concrete fixtures -/

/-- A paired, connected controller: access token "A" issued at 1000 valid
one day, refresh token "R", client connected with the access token. -/
def stPaired : Ctrl :=
  { accesstoken := some "A", accesstoken_time := some 1000, accesstoken_duration_day := some 1,
    refreshtoken := some "R", refreshtoken_time := some 1000, refreshtoken_duration_day := some 30,
    client_id := some "CID", username := some "his$1", password := some "P",
    authenticated := true,
    client := some ⟨"his$1", "A", "CID"⟩, is_connected := true,
    subscriptions := [],
    topicTVUIBasepath := some "/remoteapp/tv/ui_service/CID/",
    topicTVPSBasepath := some "/remoteapp/tv/platform_service/CID/",
    topicMobiBasepath := some "/remoteapp/mobile/CID/",
    topicBrcsBasepath := some "/remoteapp/mobile/broadcast/",
    topicRemoBasepath := some "/remoteapp/tv/remote_service/CID/" }

/-- The paired fixture, but the live connection was opened with the refresh
token as MQTT password (the state refresh_token leaves behind). -/
def stRefreshConn : Ctrl :=
  { stPaired with client := some ⟨"his$1", "R", "CID"⟩ }

/-- The never-paired fixture: a freshly constructed controller. -/
def stFresh : Ctrl :=
  {}

/-- Environment fixture: clock at `now`, connects succeed, exactly one
topic answers with one payload, every other await times out. -/
def envOne (now : Nat) (topic payload : String) : Env :=
  { now := now, connectOk := true,
    reply := fun t => if t == topic then ReplyEv.msg payload else ReplyEv.timeout }

/-- Environment fixture: clock at `now`, connects succeed, every await
times out. -/
def envQuiet (now : Nat) : Env :=
  { now := now, connectOk := true, reply := fun _ => ReplyEv.timeout }

/-- Environment fixture for the refresh counterexample: the token topic
answers with a valid JSON object that carries a fresh access token and a
reissued username but lacks the other token fields. -/
def envRefreshPartial : Env :=
  envOne 91000 "/remoteapp/mobile/CID/platform_service/data/tokenissuance"
    "\x7b\"accesstoken\":\"A2\",\"username\":\"newuser\"\x7d"

/-- Environment fixture for the refresh witness: the token topic answers
with a complete, well-typed token reply that also tries to reissue the
username. -/
def envRefreshFull : Env :=
  envOne 91000 "/remoteapp/mobile/CID/platform_service/data/tokenissuance"
    "\x7b\"accesstoken\":\"A2\",\"accesstoken_time\":2000,\"accesstoken_duration_day\":7,\"refreshtoken\":\"R2\",\"refreshtoken_time\":2000,\"refreshtoken_duration_day\":30\x7d"

/-- Environment fixture: the broadcast state topic answers one getState
query with the given payload; clock at 2000 (token still valid). -/
def envStateReply (payload : String) : Env :=
  envOne 2000 "/remoteapp/mobile/broadcast/ui_service/state" payload

/-- The stored credential fields of a controller: the six token fields and
the pairing identity (username, password, client id). -/
def credFields (st : Ctrl) :
    Option String × Option Nat × Option Nat × Option String × Option Nat × Option Nat
      × Option String × Option String × Option String :=
  (st.accesstoken, st.accesstoken_time, st.accesstoken_duration_day,
   st.refreshtoken, st.refreshtoken_time, st.refreshtoken_duration_day,
   st.username, st.password, st.client_id)

/-! ## Correlation-layer lemmas -/

theorem stGet_cons (a : Nat × String × WaiterSt) (s : List (Nat × String × WaiterSt)) (i : Nat) :
    stGet (a :: s) i = if a.1 == i then some a.2.2 else stGet s i := by
  by_cases h : (a.1 == i) = true <;> simp [stGet, List.find?_cons, h]

theorem stGet_append (s l : List (Nat × String × WaiterSt)) (i : Nat) :
    stGet (s ++ l) i = (stGet s i).or (stGet l i) := by
  unfold stGet
  rw [List.find?_append]
  cases s.find? fun e => e.1 == i <;> simp [Option.or]

theorem stGet_eq_none (s : List (Nat × String × WaiterSt)) (i : Nat)
    (h : ∀ e ∈ s, e.1 ≠ i) : stGet s i = none := by
  have hf : s.find? (fun e => e.1 == i) = none :=
    List.find?_eq_none.mpr fun e he => by simpa using h e he
  simp [stGet, hf]

theorem stGet_stSet (s : List (Nat × String × WaiterSt)) (i j : Nat) (w : WaiterSt) :
    stGet (stSet s i w) j = (stGet s j).map fun old => if j == i then w else old := by
  induction s with
  | nil => rfl
  | cons a s ih =>
    simp only [stSet, List.map_cons] at ih ⊢
    simp only [beq_iff_eq] at ih
    by_cases hai : a.1 = i
    · by_cases haj : a.1 = j
      · have hji : j = i := by rw [← haj, hai]
        simp [stGet_cons, hai, haj, hji]
      · have hij : ¬ i = j := fun hc => haj (hai.trans hc)
        simp [stGet_cons, hai, haj, hij, ih]
    · by_cases haj : a.1 = j
      · have hji : ¬ j = i := fun hc => hai (by rw [haj, hc])
        simp [stGet_cons, hai, haj, hji]
      · simp [stGet_cons, hai, haj, ih]

theorem stSet_ids_lt (s : List (Nat × String × WaiterSt)) (i : Nat) (w : WaiterSt) (n : Nat)
    (h : ∀ e ∈ s, e.1 < n) : ∀ e ∈ stSet s i w, e.1 < n := by
  intro e he
  simp only [stSet, List.mem_map] at he
  obtain ⟨a, ha, rfl⟩ := he
  have := h a ha
  split <;> simpa using this

theorem cancelCurrent_ids_lt (cs : CorrState) (t : String) (h : corrWF cs) :
    ∀ e ∈ cancelCurrent cs t, e.1 < cs.next := by
  unfold cancelCurrent
  split
  · split
    · exact stSet_ids_lt _ _ _ _ h
    · exact h
  · exact h

theorem find?_mapReplace (tb : List (String × Nat)) (k : String) (v : Nat)
    (h : tb.any (fun p => p.1 == k) = true) :
    (tb.map fun p => if p.1 == k then (k, v) else p).find? (fun p => p.1 == k)
      = some (k, v) := by
  induction tb with
  | nil => simp at h
  | cons a tb ih =>
    rw [List.map_cons]
    by_cases ha : a.1 = k
    · have hh : (if (a.1 == k) = true then (k, v) else a) = (k, v) := by simp [ha]
      rw [hh]
      exact List.find?_cons_of_pos _ (by simp)
    · have hh : (if (a.1 == k) = true then (k, v) else a) = a := by simp [ha]
      rw [hh, List.find?_cons_of_neg _ (by simpa using ha)]
      exact ih (by simpa [List.any_cons, ha] using h)

theorem tableGet_tableSet_self (tb : List (String × Nat)) (k : String) (v : Nat) :
    tableGet (tableSet tb k v) k = some v := by
  unfold tableGet tableSet
  split
  case isTrue h =>
    rw [find?_mapReplace tb k v h]
    rfl
  case isFalse h =>
    have hf : tb.find? (fun p => p.1 == k) = none :=
      List.find?_eq_none.mpr fun e he => by
        intro hc
        exact h (List.any_eq_true.mpr ⟨e, he, hc⟩)
    rw [List.find?_append, hf, List.find?_cons_of_pos _ (by simp)]
    rfl

theorem corrWF_step (cs : CorrState) (op : CorrOp) (h : corrWF cs) :
    corrWF (corrStep cs op) := by
  cases op with
  | register t =>
    intro e he
    simp only [corrStep, corrRegister, List.mem_append, List.mem_singleton] at he
    rcases he with he | rfl
    · exact Nat.lt_succ_of_lt (cancelCurrent_ids_lt cs t h e he)
    · exact Nat.lt_succ_self _
  | deliver t p =>
    simp only [corrStep]
    unfold corrDeliver
    split
    · split
      · intro e he
        exact stSet_ids_lt _ _ _ _ h e he
      · exact h
    · exact h
  | unregister t => exact h
  | cancel i =>
    simp only [corrStep]
    unfold corrCancel
    split
    · intro e he
      exact stSet_ids_lt _ _ _ _ h e he
    · exact h

theorem corrWF_runFrom (cs : CorrState) (ops : List CorrOp) (h : corrWF cs) :
    corrWF (corrRunFrom cs ops) := by
  induction ops generalizing cs with
  | nil => exact h
  | cons op ops ih =>
    simp only [corrRunFrom, List.foldl_cons]
    exact ih _ (corrWF_step cs op h)

theorem corrWF_run (ops : List CorrOp) : corrWF (corrRun ops) :=
  corrWF_runFrom corrInit ops (by intro e he; simp [corrInit] at he)

/-! ## Claim theorems -/

/-- C1 (amended): in any well-formed correlation state, starting a second
awaitTopicOnce on a topic before the first resolves cancels the first
waiter (it is discarded by cancellation, no exception is ever set on it)
and installs the second as the topic's unique registered waiter; if the
message is dispatched while the second waiter is still registered, the
second, and only the second, resolves with its payload, and the first
remains cancelled, never resolved.  (The unqualified claim fails: the
first caller's finally-block cleanup can pop the second waiter first, see
the counterexample.) -/
theorem C1_waiter_replacement (cs : CorrState) (h : corrWF cs) (t p : String)
    (s1 : CorrState) (i1 : Nat) (h1 : corrRegister cs t = (s1, i1))
    (s2 : CorrState) (i2 : Nat) (h2 : corrRegister s1 t = (s2, i2)) :
    i1 ≠ i2
      ∧ stGet s2.status i1 = some WaiterSt.cancelled
      ∧ stGet (corrDeliver s2 t p).status i1 = some WaiterSt.cancelled
      ∧ stGet (corrDeliver s2 t p).status i2 = some (WaiterSt.resolved p)
      ∧ (∀ j, j ≠ i2 → stGet (corrDeliver s2 t p).status j = stGet s2.status j)
      ∧ tableGet s2.table t = some i2 := by
  have hfst1 : (corrRegister cs t).1 = s1 := congrArg Prod.fst h1
  have hi1 : i1 = cs.next := (congrArg Prod.snd h1).symm
  have hstat1 : s1.status = cancelCurrent cs t ++ [(cs.next, t, WaiterSt.pending)] := by
    rw [← hfst1]
    rfl
  have htab1 : s1.table = tableSet cs.table t cs.next := by
    rw [← hfst1]
    rfl
  have hnext1 : s1.next = cs.next + 1 := by
    rw [← hfst1]
    rfl
  have hfst2 : (corrRegister s1 t).1 = s2 := congrArg Prod.fst h2
  have hsnd2 : (corrRegister s1 t).2 = i2 := congrArg Prod.snd h2
  have hi2 : i2 = cs.next + 1 := hsnd2.symm.trans hnext1
  have hstat2 : s2.status = cancelCurrent s1 t ++ [(s1.next, t, WaiterSt.pending)] := by
    rw [← hfst2]
    rfl
  have htab2 : s2.table = tableSet s1.table t s1.next := by
    rw [← hfst2]
    rfl
  have hA : stGet s1.status cs.next = some WaiterSt.pending := by
    rw [hstat1, stGet_append,
      stGet_eq_none _ _ fun e he => Nat.ne_of_lt (cancelCurrent_ids_lt cs t h e he)]
    simp [stGet_cons]
  have hT1 : tableGet s1.table t = some cs.next := by
    rw [htab1]
    exact tableGet_tableSet_self _ _ _
  have hCC1 : cancelCurrent s1 t = stSet s1.status cs.next WaiterSt.cancelled := by
    simp [cancelCurrent, hT1, hA]
  have hids1 : ∀ e ∈ s1.status, e.1 < cs.next + 1 := by
    rw [hstat1]
    intro e he
    rcases List.mem_append.mp he with h' | h'
    · exact Nat.lt_succ_of_lt (cancelCurrent_ids_lt cs t h e h')
    · rcases List.mem_singleton.mp h' with rfl
      exact Nat.lt_succ_self _
  have hB : stGet s2.status cs.next = some WaiterSt.cancelled := by
    rw [hstat2, hCC1, stGet_append, stGet_stSet, hA]
    simp
  have hC : stGet s2.status (cs.next + 1) = some WaiterSt.pending := by
    rw [hstat2, hCC1, stGet_append, stGet_stSet,
      stGet_eq_none _ _ fun e he => Nat.ne_of_lt (hids1 e he), hnext1]
    simp [stGet_cons]
  have hT2 : tableGet s2.table t = some i2 := by
    rw [htab2, show i2 = s1.next from by rw [hi2, hnext1]]
    exact tableGet_tableSet_self _ _ _
  have hs3 : (corrDeliver s2 t p).status = stSet s2.status (cs.next + 1) (WaiterSt.resolved p) := by
    simp [corrDeliver, hT2, hi2, hC]
  have hne : ¬ cs.next = cs.next + 1 := by omega
  refine ⟨?_, ?_, ?_, ?_, ?_, hT2⟩
  · rw [hi1, hi2]
    omega
  · rw [hi1]
    exact hB
  · rw [hs3, stGet_stSet, hi1, hB]
    simp [hne]
  · rw [hs3, stGet_stSet, hi2, hC]
    simp
  · intro j hj
    rw [hi2] at hj
    rw [hs3, stGet_stSet]
    simp [hj]

/-- C1 witness: from the initial correlation state, registering twice on
topic T and then delivering a message resolves the second waiter with the
payload, the first having been cancelled. -/
theorem C1_waiter_replacement_witness :
    stGet (corrDeliver (corrRegister (corrRegister corrInit "T").1 "T").1 "T" "x").status
        (corrRegister (corrRegister corrInit "T").1 "T").2
      = some (WaiterSt.resolved "x")
    ∧ stGet (corrRegister (corrRegister corrInit "T").1 "T").1.status
        (corrRegister corrInit "T").2 = some WaiterSt.cancelled := by
  have H := C1_waiter_replacement corrInit (by intro e he; simp [corrInit] at he) "T" "x"
    (corrRegister corrInit "T").1 (corrRegister corrInit "T").2 rfl
    (corrRegister (corrRegister corrInit "T").1 "T").1
    (corrRegister (corrRegister corrInit "T").1 "T").2 rfl
  exact ⟨H.2.2.2.1, H.2.1⟩

/-- C1 counterexample: the claim as stated fails once the first caller's
cleanup is interleaved.  After register, register, the first caller's
finally-block pop, and then the message, the second waiter (id 1) is still
pending and is never resolved with the payload (the first, id 0, was
cancelled as claimed).  The code drops the message because the pop removed
the second waiter's table entry. -/
theorem C1_cleanup_drops_second_waiter :
    stGet (corrRun [CorrOp.register "T", CorrOp.register "T", CorrOp.unregister "T",
        CorrOp.deliver "T" "hello"]).status 1 = some WaiterSt.pending
    ∧ stGet (corrRun [CorrOp.register "T", CorrOp.register "T", CorrOp.unregister "T",
        CorrOp.deliver "T" "hello"]).status 1 ≠ some (WaiterSt.resolved "hello")
    ∧ stGet (corrRun [CorrOp.register "T", CorrOp.register "T", CorrOp.unregister "T",
        CorrOp.deliver "T" "hello"]).status 0 = some WaiterSt.cancelled := by
  refine ⟨rfl, ?_, rfl⟩
  decide

/-- C2: Identity derivation: for every timestamp and MAC address, the
password, username (both the plain and the isReauth XOR variant) and
clientId computed by _define_hashes equal the hash-chain formulas stated
in the specification. -/
theorem C2_identity_derivation (now : Nat) (mac : String) (isReauth : Bool) :
    (defineHashes now mac isReauth).password = specPassword now
      ∧ (defineHashes now mac isReauth).username = specUsername now isReauth
      ∧ (defineHashes now mac isReauth).client_id = specClientId mac :=
  ⟨rfl, rfl, rfl⟩

/-- C8 (amended): the app-connect acknowledgement accepts a payload iff it
equals the two-character double-quote pair after stripping leading and
trailing whitespace, and every payload that fails this raises the
unexpected-authentication-payload error. -/
theorem C8_auth_ack_iff_stripped_quotes (payload : String) :
    (authAckCheck payload = Except.ok () ↔ pyStrip payload = "\"\"")
      ∧ (pyStrip payload ≠ "\"\"" →
          authAckCheck payload = Except.error (PErr.unexpectedAuthPayload payload)) := by
  unfold authAckCheck
  constructor
  · by_cases h : pyStrip payload = "\"\"" <;> simp [h]
  · intro h
    simp [h]

/-- C8 witness: a payload that does not strip to the quote pair is
rejected with the unexpected-authentication-payload error. -/
theorem C8_auth_ack_iff_stripped_quotes_witness :
    authAckCheck "nope" = Except.error (PErr.unexpectedAuthPayload "nope") :=
  (C8_auth_ack_iff_stripped_quotes "nope").2 (by decide)

/-- C8 counterexample: the payload of a quote pair preceded by a space is
accepted by the handshake although it is not the literal empty-JSON-string
payload, refuting the claimed only-if direction. -/
theorem C8_strip_accepts_padded_payload :
    authAckCheck " \"\"" = Except.ok () ∧ " \"\"" ≠ "\"\"" := by
  refine ⟨rfl, ?_⟩
  decide

/-! ## Session-manager helper lemmas -/

theorem check_valid_noop (st : Ctrl) (env : Env)
    (h1 : truthyS st.accesstoken = true) (h2 : truthyN st.accesstoken_time = true)
    (h3 : truthyN st.accesstoken_duration_day = true)
    (hle : env.now ≤ st.accesstoken_time.getD 0 + st.accesstoken_duration_day.getD 0 * 86400) :
    check_and_refresh_token st env
      = { res := Except.ok (sget st.accesstoken), st := st, effs := [] } := by
  have hmul : st.accesstoken_duration_day.getD 0 * 24 * 60 * 60
      = st.accesstoken_duration_day.getD 0 * 86400 := by ring
  simp [check_and_refresh_token, h1, h2, h3, hmul, hle]

theorem connect_conn_noop (st : Ctrl) (env : Env)
    (h1 : truthyS st.username = true) (h2 : truthyS st.client_id = true)
    (h3 : truthyS st.accesstoken = true)
    (hconn : st.is_connected = true) (hcl : st.client.isSome = true) :
    connect_with_access_token st env = { res := Except.ok (), st := st, effs := [] } := by
  simp [connect_with_access_token, h1, h2, h3, hconn, hcl]

theorem send_command_ready (st : Ctrl) (env : Env) (topic : String) (cmd : Option String)
    (h1 : truthyS st.accesstoken = true) (h2 : truthyN st.accesstoken_time = true)
    (h3 : truthyN st.accesstoken_duration_day = true)
    (h4 : truthyS st.username = true) (h5 : truthyS st.client_id = true)
    (hle : env.now ≤ st.accesstoken_time.getD 0 + st.accesstoken_duration_day.getD 0 * 86400)
    (hconn : st.is_connected = true) (hcl : st.client.isSome = true) :
    send_command st env topic cmd
      = { res := Except.ok (), st := st, effs := [Eff.publish topic cmd] } := by
  simp [send_command, h1, check_valid_noop st env h1 h2 h3 hle,
    connect_conn_noop st env h4 h5 h1 hconn hcl]

/-! ## C4, C5, C7, C10 -/

/-- C4: Token expiry check: with access token, issue time and validity-day
count stored (truthy, exactly as the code asserts), check_and_refresh_token
is a no-op performing no network effects and returning the stored access
token when now ≤ issuedAt + validDays × 86400, and performs exactly one
refresh attempt (it delegates to one refresh_token call) when now exceeds
that bound. -/
theorem C4_token_expiry_check (st : Ctrl) (env : Env)
    (h1 : truthyS st.accesstoken = true) (h2 : truthyN st.accesstoken_time = true)
    (h3 : truthyN st.accesstoken_duration_day = true) :
    (env.now ≤ st.accesstoken_time.getD 0 + st.accesstoken_duration_day.getD 0 * 86400 →
      check_and_refresh_token st env
        = { res := Except.ok (sget st.accesstoken), st := st, effs := [] })
    ∧ (st.accesstoken_time.getD 0 + st.accesstoken_duration_day.getD 0 * 86400 < env.now →
      check_and_refresh_token st env = refresh_token st env) := by
  have hmul : st.accesstoken_duration_day.getD 0 * 24 * 60 * 60
      = st.accesstoken_duration_day.getD 0 * 86400 := by ring
  constructor
  · intro hle
    exact check_valid_noop st env h1 h2 h3 hle
  · intro hlt
    have hnle : ¬ env.now ≤ st.accesstoken_time.getD 0
        + st.accesstoken_duration_day.getD 0 * 24 * 60 * 60 := by
      rw [hmul]
      omega
    simp [check_and_refresh_token, h1, h2, h3, hnle]

/-- C4 witness: with validity one day and issue time 1000, the check is a
pure no-op at now = 81000 (within 86400 s) and delegates to exactly one
refresh_token call at now = 91000 (past the bound). -/
theorem C4_token_expiry_check_witness :
    check_and_refresh_token stPaired (envQuiet 81000)
      = { res := Except.ok "A", st := stPaired, effs := [] }
    ∧ check_and_refresh_token stPaired (envQuiet 91000)
      = refresh_token stPaired (envQuiet 91000) :=
  ⟨(C4_token_expiry_check stPaired (envQuiet 81000) rfl rfl rfl).1 (by decide),
   (C4_token_expiry_check stPaired (envQuiet 91000) rfl rfl rfl).2 (by decide)⟩

/-- C5 (amended): with username, client id and access token stored,
connect_with_access_token is a no-op whenever a connection is already up,
regardless of which credentials the live connection was opened with; only
when no live connection exists does it tear down any existing client and
open a new transport session authenticated with (username, accessToken,
clientId). -/
theorem C5_connect_noop_when_connected (st : Ctrl) (env : Env)
    (h1 : truthyS st.username = true) (h2 : truthyS st.client_id = true)
    (h3 : truthyS st.accesstoken = true) :
    (st.is_connected = true → st.client.isSome = true →
      connect_with_access_token st env = { res := Except.ok (), st := st, effs := [] })
    ∧ (st.client = none → env.connectOk = true →
      connect_with_access_token st env
        = { res := Except.ok (),
            st := { st with
              client := some ⟨sget st.username, sget st.accesstoken, sget st.client_id⟩,
              is_connected := true },
            effs := [Eff.connect (sget st.username) (sget st.accesstoken) (sget st.client_id)] })
    ∧ (∀ c, st.client = some c → st.is_connected = false → env.connectOk = true →
      connect_with_access_token st env
        = { res := Except.ok (),
            st := { st with
              client := some ⟨sget st.username, sget st.accesstoken, sget st.client_id⟩,
              is_connected := true, subscriptions := [] },
            effs := [Eff.disconnect,
              Eff.connect (sget st.username) (sget st.accesstoken) (sget st.client_id)] }) := by
  refine ⟨fun hconn hcl => connect_conn_noop st env h1 h2 h3 hconn hcl, ?_, ?_⟩
  · intro hcl hok
    cases hic : st.is_connected <;>
      simp [connect_with_access_token, ensure_connected, h1, h2, h3, hcl, hok, hic]
  · intro c hcl hic hok
    simp [connect_with_access_token, ensure_connected, h1, h2, h3, hcl, hic, hok]

/-- C5 witness: from a disconnected state the operation opens a session
authenticated with (username, accessToken, clientId). -/
theorem C5_connect_noop_when_connected_witness :
    connect_with_access_token { stPaired with client := none, is_connected := false }
        (envQuiet 2000)
      = { res := Except.ok (),
          st := { stPaired with client := some ⟨"his$1", "A", "CID"⟩, is_connected := true },
          effs := [Eff.connect "his$1" "A" "CID"] } :=
  (C5_connect_noop_when_connected { stPaired with client := none, is_connected := false }
    (envQuiet 2000) rfl rfl rfl).2.1 rfl rfl

/-- C5 counterexample: with a live connection that was opened with the
refresh token "R" as MQTT password, connect_with_access_token is a no-op
and leaves the refresh-token connection in place, although the claim
requires it to tear down and reconnect with the access token "A". -/
theorem C5_noop_with_refresh_credentials :
    connect_with_access_token stRefreshConn (envQuiet 2000)
      = { res := Except.ok (), st := stRefreshConn, effs := [] }
    ∧ stRefreshConn.client = some ⟨"his$1", "R", "CID"⟩
    ∧ stRefreshConn.accesstoken = some "A"
    ∧ ("R" : String) ≠ "A" := by
  refine ⟨rfl, rfl, rfl, ?_⟩
  decide

/-- C7 (amended): in an authenticated, connected session whose token is
within validity, a generic query whose awaited reply payload is not valid
JSON does not raise: _get_info swallows the JSON decode failure and
returns None (a value, not a MalformedPayload failure). -/
theorem C7_invalid_json_returns_none (st : Ctrl) (env : Env) (cb sub pub payload : String)
    (h1 : truthyS st.accesstoken = true) (h2 : truthyN st.accesstoken_time = true)
    (h3 : truthyN st.accesstoken_duration_day = true)
    (h4 : truthyS st.username = true) (h5 : truthyS st.client_id = true)
    (hle : env.now ≤ st.accesstoken_time.getD 0 + st.accesstoken_duration_day.getD 0 * 86400)
    (hconn : st.is_connected = true) (hcl : st.client.isSome = true)
    (hreply : env.reply cb = ReplyEv.msg payload)
    (hbad : jsonLoads payload = none) :
    get_info st env cb sub pub
      = { res := Except.ok none, st := (subscribeOp (subscribeOp st sub).1 cb).1,
          effs := (subscribeOp st sub).2 ++ [Eff.publish pub none]
            ++ (subscribeOp (subscribeOp st sub).1 cb).2 } := by
  simp [get_info, h1, check_valid_noop st env h1 h2 h3 hle,
    connect_conn_noop st env h4 h5 h1 hconn hcl, await_topic_once, hreply, hbad]

/-- C7 witness: a getState reply of "not json" makes the query return the
value None instead of failing. -/
theorem C7_invalid_json_returns_none_witness :
    get_info stPaired (envOne 2000 "/remoteapp/mobile/broadcast/ui_service/state" "not json")
        "/remoteapp/mobile/broadcast/ui_service/state"
        "/remoteapp/mobile/broadcast/ui_service/state"
        "/remoteapp/tv/ui_service/CID/actions/gettvstate"
      = { res := Except.ok none,
          st := { stPaired with
            subscriptions := ["/remoteapp/mobile/broadcast/ui_service/state"] },
          effs := [Eff.subscribe "/remoteapp/mobile/broadcast/ui_service/state",
            Eff.publish "/remoteapp/tv/ui_service/CID/actions/gettvstate" none] } :=
  C7_invalid_json_returns_none stPaired
    (envOne 2000 "/remoteapp/mobile/broadcast/ui_service/state" "not json")
    "/remoteapp/mobile/broadcast/ui_service/state"
    "/remoteapp/mobile/broadcast/ui_service/state"
    "/remoteapp/tv/ui_service/CID/actions/gettvstate" "not json"
    rfl rfl rfl rfl rfl (by decide) rfl rfl rfl rfl

/-- C7 counterexample: the claim as stated is false: on the reply payload
"not json" (invalid JSON) the state query completes with the ordinary value
None; it does not fail (no exception of any kind is raised). -/
theorem C7_query_returns_value_on_bad_json :
    jsonLoads "not json" = none
    ∧ (get_tv_state stPaired
        (envOne 2000 "/remoteapp/mobile/broadcast/ui_service/state" "not json")).res
      = Except.ok none
    ∧ ∀ e, (get_tv_state stPaired
        (envOne 2000 "/remoteapp/mobile/broadcast/ui_service/state" "not json")).res
      ≠ Except.error e := by
  refine ⟨rfl, rfl, fun e => ?_⟩
  intro hc
  rw [show (get_tv_state stPaired
      (envOne 2000 "/remoteapp/mobile/broadcast/ui_service/state" "not json")).res
      = Except.ok none from rfl] at hc
  exact Except.noConfusion hc

/-- C10 (amended): with no access token stored, every facade query or
command raises the not-authenticated error before publishing anything and
leaves the whole controller state unchanged — launch_app included, both
when its cached app list is absent or falsy (the guard fires inside
get_app_list) and when the cached list resolves to an app (the guard fires
at the state fetch).  The single exception is launch_app handed a cached
non-empty app list in which no entry resolves: that call returns False
without raising (and still publishes nothing). -/
theorem C10_not_authenticated_guard (st : Ctrl) (env : Env)
    (h : truthyS st.accesstoken = false) (key : String) (sid : JVal) (vol : Int)
    (name : String) (alist : Option JVal) (halist : optTruthy alist = false) :
    get_tv_state st env = { res := Except.error PErr.notAuthenticated, st := st, effs := [] }
    ∧ get_source_list st env = { res := Except.error PErr.notAuthenticated, st := st, effs := [] }
    ∧ get_volume st env = { res := Except.error PErr.notAuthenticated, st := st, effs := [] }
    ∧ get_app_list st env = { res := Except.error PErr.notAuthenticated, st := st, effs := [] }
    ∧ send_key st env key = { res := Except.error PErr.notAuthenticated, st := st, effs := [] }
    ∧ change_source st env sid
        = { res := Except.error PErr.notAuthenticated, st := st, effs := [] }
    ∧ change_volume st env vol
        = { res := Except.error PErr.notAuthenticated, st := st, effs := [] }
    ∧ launch_app st env name alist
        = { res := Except.error PErr.notAuthenticated, st := st, effs := [] }
    ∧ power_cycle_tv st env
        = { res := Except.error PErr.notAuthenticated, st := st, effs := [] }
    ∧ (∀ (apps : List JVal) (idv urlv : JVal) (rn : String), apps ≠ [] →
        findAppLoop apps name = Except.ok (some (some idv, some urlv, rn)) →
        jTruthy idv = true → jTruthy urlv = true →
      launch_app st env name (some (JVal.jarr apps))
        = { res := Except.error PErr.notAuthenticated, st := st, effs := [] }) := by
  have hinfo : ∀ a b c, get_info st env a b c
      = { res := Except.error PErr.notAuthenticated, st := st, effs := [] } := by
    intro a b c
    simp [get_info, h]
  have hcmd : ∀ a c, send_command st env a c
      = { res := Except.error PErr.notAuthenticated, st := st, effs := [] } := by
    intro a c
    simp [send_command, h]
  refine ⟨?_, ?_, ?_, ?_, ?_, ?_, ?_, ?_, ?_, ?_⟩
  · simp [get_tv_state, hinfo]
  · simp [get_source_list, hinfo]
  · simp [get_volume, hinfo]
  · simp [get_app_list, hinfo]
  · simp [send_key, get_tv_state, hinfo]
  · simp [change_source, get_tv_state, hinfo]
  · simp [change_volume, get_tv_state, hinfo]
  · simp [launch_app, get_app_list, hinfo, halist]
  · simp [power_cycle_tv, hcmd]
  · intro apps idv urlv rn hne hfind hid hurl
    have hne2 : apps.isEmpty = false := by simpa using hne
    have hlist : optTruthy (some (JVal.jarr apps)) = true := by
      simp [optTruthy, jTruthy, hne2]
    have hidv : optTruthy (some idv) = true := by simp [optTruthy, hid]
    have hurlv : optTruthy (some urlv) = true := by simp [optTruthy, hurl]
    simp [launch_app, hlist, hfind, hidv, hurlv, get_tv_state, hinfo]

/-- C10 witness: on a freshly constructed (never paired) controller the
operations raise the not-authenticated error without publishing, including
launch_app handed a cached list whose entry resolves. -/
theorem C10_not_authenticated_guard_witness :
    send_key stFresh (envQuiet 0) "KEY_UP"
      = { res := Except.error PErr.notAuthenticated, st := stFresh, effs := [] }
    ∧ power_cycle_tv stFresh (envQuiet 0)
      = { res := Except.error PErr.notAuthenticated, st := stFresh, effs := [] }
    ∧ launch_app stFresh (envQuiet 0) "Netflix"
        (some (JVal.jarr [JVal.jobj [("name", JVal.jstr "NETFLIX"), ("appId", JVal.jnum 7),
          ("url", JVal.jstr "netflix://x")]]))
      = { res := Except.error PErr.notAuthenticated, st := stFresh, effs := [] } :=
  ⟨(C10_not_authenticated_guard stFresh (envQuiet 0) rfl "KEY_UP" (JVal.jnum 1) 5 "Netflix"
      none rfl).2.2.2.2.1,
   (C10_not_authenticated_guard stFresh (envQuiet 0) rfl "KEY_UP" (JVal.jnum 1) 5 "Netflix"
      none rfl).2.2.2.2.2.2.2.2.1,
   (C10_not_authenticated_guard stFresh (envQuiet 0) rfl "KEY_UP" (JVal.jnum 1) 5 "Netflix"
      none rfl).2.2.2.2.2.2.2.2.2
     [JVal.jobj [("name", JVal.jstr "NETFLIX"), ("appId", JVal.jnum 7),
       ("url", JVal.jstr "netflix://x")]]
     (JVal.jnum 7) (JVal.jstr "netflix://x") "NETFLIX"
     (List.cons_ne_nil _ _) rfl rfl (by decide)⟩

/-- C10 counterexample: launch_app invoked unauthenticated but with a
cached app list in which no entry matches returns False without raising
the not-authenticated error, refuting the claim for that operation. -/
theorem C10_launch_app_cached_list_no_raise :
    launch_app stFresh (envQuiet 0) "Netflix"
        (some (JVal.jarr [JVal.jobj [("name", JVal.jstr "YouTube"), ("appId", JVal.jnum 1),
          ("url", JVal.jstr "u")]]))
      = { res := Except.ok false, st := stFresh, effs := [] }
    ∧ stFresh.accesstoken = none :=
  ⟨rfl, rfl⟩

/-! ## Dict and credential-application lemmas (for C3) -/

theorem dictGet_cons (a : String × JVal) (d : List (String × JVal)) (k : String) :
    dictGet (a :: d) k = if a.1 == k then some a.2 else dictGet d k := by
  by_cases h : (a.1 == k) = true <;> simp [dictGet, List.find?_cons, h]

theorem dictGet_map_replace (d : List (String × JVal)) (k k2 : String) (v : JVal)
    (h : ¬ k = k2) :
    dictGet (d.map fun p => if p.1 == k2 then (k2, v) else p) k = dictGet d k := by
  induction d with
  | nil => rfl
  | cons a d ih =>
    simp only [beq_iff_eq] at ih
    rw [List.map_cons]
    by_cases ha : a.1 = k2
    · have hh : (if (a.1 == k2) = true then (k2, v) else a) = (k2, v) := by simp [ha]
      have hk : ¬ a.1 = k := fun hc => h (hc ▸ ha).symm.symm
      rw [hh, dictGet_cons, dictGet_cons]
      have hk2 : ¬ k2 = k := fun hc => h hc.symm
      simp [ha, hk2, ih]
    · have hh : (if (a.1 == k2) = true then (k2, v) else a) = a := by simp [ha]
      rw [hh, dictGet_cons, dictGet_cons]
      simp [ih]

theorem dictGet_append_single_ne (d : List (String × JVal)) (k k2 : String) (v : JVal)
    (h : ¬ k = k2) :
    dictGet (d ++ [(k2, v)]) k = dictGet d k := by
  induction d with
  | nil =>
    have hk2 : ¬ k2 = k := fun hc => h hc.symm
    simp [dictGet_cons, hk2, dictGet]
  | cons a d ih =>
    rw [List.cons_append, dictGet_cons, dictGet_cons, ih]

theorem dictGet_dictSet_ne (d : List (String × JVal)) (k k2 : String) (v : JVal)
    (h : ¬ k = k2) :
    dictGet (dictSet d k2 v) k = dictGet d k := by
  unfold dictSet
  split
  · exact dictGet_map_replace d k k2 v h
  · exact dictGet_append_single_ne d k k2 v h

theorem subscribeOp_st (st : Ctrl) (t : String) :
    ∃ subs, (subscribeOp st t).1 = { st with subscriptions := subs } := by
  unfold subscribeOp
  split
  · exact ⟨st.subscriptions, rfl⟩
  · exact ⟨st.subscriptions ++ [t], rfl⟩

theorem credFields_subscribeOp (st : Ctrl) (t : String) :
    credFields (subscribeOp st t).1 = credFields st := by
  unfold subscribeOp
  split <;> rfl

theorem intCast_nonneg_false (n : Nat) : ((n : Int) < 0) = False :=
  eq_false (by omega)

theorem apply_credentials_success (st : Ctrl) (c : List (String × JVal))
    (a1 a4 : String) (a2 a3 a5 a6 : Nat)
    (k1 : dictGet c "accesstoken" = some (JVal.jstr a1))
    (k2 : dictGet c "accesstoken_time" = some (JVal.jnum a2))
    (k3 : dictGet c "accesstoken_duration_day" = some (JVal.jnum a3))
    (k4 : dictGet c "refreshtoken" = some (JVal.jstr a4))
    (k5 : dictGet c "refreshtoken_time" = some (JVal.jnum a5))
    (k6 : dictGet c "refreshtoken_duration_day" = some (JVal.jnum a6)) :
    apply_credentials st c
      = (none, { st with
          accesstoken := some a1
          accesstoken_time := some a2
          accesstoken_duration_day := some a3
          refreshtoken := some a4
          refreshtoken_time := some a5
          refreshtoken_duration_day := some a6 }) := by
  simp [apply_credentials, k1, k2, k3, k4, k5, k6, asStr, asNat, intCast_nonneg_false]

theorem apply_credentials_missing_time (st : Ctrl) (c : List (String × JVal)) (a1 : String)
    (k1 : dictGet c "accesstoken" = some (JVal.jstr a1))
    (k2 : dictGet c "accesstoken_time" = none) :
    apply_credentials st c
      = (some (PErr.keyError "accesstoken_time"), { st with accesstoken := some a1 }) := by
  simp [apply_credentials, k1, k2, asStr]

/-! ## Refresh-phase lemmas (for C3) -/

theorem refresh_token_connect_spec (st : Ctrl) (env : Env)
    (h1 : truthyS st.client_id = true) (h2 : truthyS st.username = true)
    (h3 : truthyS st.refreshtoken = true) (hok : env.connectOk = true) :
    (refresh_token_connect st env).res = Except.ok ()
    ∧ credFields (refresh_token_connect st env).st = credFields st
    ∧ (refresh_token_connect st env).st.topicMobiBasepath = st.topicMobiBasepath := by
  rcases hcl : st.client with _ | c <;> cases hic : st.is_connected <;>
    simp [refresh_token_connect, ensure_connected, credFields, h1, h2, h3, hok, hcl, hic]

theorem refresh_finish_timeout (st : Ctrl) (env : Env)
    (hr : env.reply (tokenTopicOf st) = ReplyEv.timeout) :
    (refresh_token_finish st env).res = Except.error PErr.awaitTimeout
    ∧ credFields (refresh_token_finish st env).st = credFields st := by
  constructor <;>
    simp [refresh_token_finish, await_topic_once, hr, credFields_subscribeOp]

theorem refresh_finish_badjson (st : Ctrl) (env : Env) (payload : String)
    (hr : env.reply (tokenTopicOf st) = ReplyEv.msg payload)
    (hp : jsonLoads payload = none) :
    (refresh_token_finish st env).res = Except.error PErr.jsonDecodeError
    ∧ credFields (refresh_token_finish st env).st = credFields st := by
  constructor <;>
    simp [refresh_token_finish, await_topic_once, hr, hp, credFields_subscribeOp]

theorem refresh_finish_success (st : Ctrl) (env : Env) (payload : String)
    (fields : List (String × JVal)) (a1 a4 : String) (a2 a3 a5 a6 : Nat)
    (hr : env.reply (tokenTopicOf st) = ReplyEv.msg payload)
    (hp : jsonLoads payload = some (JVal.jobj fields))
    (k1 : dictGet fields "accesstoken" = some (JVal.jstr a1))
    (k2 : dictGet fields "accesstoken_time" = some (JVal.jnum a2))
    (k3 : dictGet fields "accesstoken_duration_day" = some (JVal.jnum a3))
    (k4 : dictGet fields "refreshtoken" = some (JVal.jstr a4))
    (k5 : dictGet fields "refreshtoken_time" = some (JVal.jnum a5))
    (k6 : dictGet fields "refreshtoken_duration_day" = some (JVal.jnum a6)) :
    (refresh_token_finish st env).res = Except.ok a1
    ∧ (refresh_token_finish st env).st.accesstoken = some a1
    ∧ (refresh_token_finish st env).st.accesstoken_time = some a2
    ∧ (refresh_token_finish st env).st.accesstoken_duration_day = some a3
    ∧ (refresh_token_finish st env).st.refreshtoken = some a4
    ∧ (refresh_token_finish st env).st.refreshtoken_time = some a5
    ∧ (refresh_token_finish st env).st.refreshtoken_duration_day = some a6
    ∧ (refresh_token_finish st env).st.username = st.username
    ∧ (refresh_token_finish st env).st.password = st.password
    ∧ (refresh_token_finish st env).st.client_id = st.client_id
    ∧ (refresh_token_finish st env).st.authenticated = true := by
  obtain ⟨s1, hs1⟩ := subscribeOp_st st (tokenTopicOf st)
  obtain ⟨s2, hs2⟩ := subscribeOp_st ({ st with subscriptions := s1 } : Ctrl) (tokenTopicOf st)
  have hstA : (subscribeOp (subscribeOp st (tokenTopicOf st)).1 (tokenTopicOf st)).1
      = { st with subscriptions := s2 } := by rw [hs1, hs2]
  have g1 : dictGet (dictSet (dictSet (dictSet fields "client_id" (optJ st.client_id))
      "username" (optJ st.username)) "password" (optJ st.password)) "accesstoken"
      = some (JVal.jstr a1) := by
    rw [dictGet_dictSet_ne _ _ _ _ (by decide), dictGet_dictSet_ne _ _ _ _ (by decide),
      dictGet_dictSet_ne _ _ _ _ (by decide)]
    exact k1
  have g2 : dictGet (dictSet (dictSet (dictSet fields "client_id" (optJ st.client_id))
      "username" (optJ st.username)) "password" (optJ st.password)) "accesstoken_time"
      = some (JVal.jnum a2) := by
    rw [dictGet_dictSet_ne _ _ _ _ (by decide), dictGet_dictSet_ne _ _ _ _ (by decide),
      dictGet_dictSet_ne _ _ _ _ (by decide)]
    exact k2
  have g3 : dictGet (dictSet (dictSet (dictSet fields "client_id" (optJ st.client_id))
      "username" (optJ st.username)) "password" (optJ st.password)) "accesstoken_duration_day"
      = some (JVal.jnum a3) := by
    rw [dictGet_dictSet_ne _ _ _ _ (by decide), dictGet_dictSet_ne _ _ _ _ (by decide),
      dictGet_dictSet_ne _ _ _ _ (by decide)]
    exact k3
  have g4 : dictGet (dictSet (dictSet (dictSet fields "client_id" (optJ st.client_id))
      "username" (optJ st.username)) "password" (optJ st.password)) "refreshtoken"
      = some (JVal.jstr a4) := by
    rw [dictGet_dictSet_ne _ _ _ _ (by decide), dictGet_dictSet_ne _ _ _ _ (by decide),
      dictGet_dictSet_ne _ _ _ _ (by decide)]
    exact k4
  have g5 : dictGet (dictSet (dictSet (dictSet fields "client_id" (optJ st.client_id))
      "username" (optJ st.username)) "password" (optJ st.password)) "refreshtoken_time"
      = some (JVal.jnum a5) := by
    rw [dictGet_dictSet_ne _ _ _ _ (by decide), dictGet_dictSet_ne _ _ _ _ (by decide),
      dictGet_dictSet_ne _ _ _ _ (by decide)]
    exact k5
  have g6 : dictGet (dictSet (dictSet (dictSet fields "client_id" (optJ st.client_id))
      "username" (optJ st.username)) "password" (optJ st.password)) "refreshtoken_duration_day"
      = some (JVal.jnum a6) := by
    rw [dictGet_dictSet_ne _ _ _ _ (by decide), dictGet_dictSet_ne _ _ _ _ (by decide),
      dictGet_dictSet_ne _ _ _ _ (by decide)]
    exact k6
  have happ := apply_credentials_success ({ st with subscriptions := s2 } : Ctrl) _
    a1 a4 a2 a3 a5 a6 g1 g2 g3 g4 g5 g6
  refine ⟨?_, ?_, ?_, ?_, ?_, ?_, ?_, ?_, ?_, ?_, ?_⟩ <;>
    simp [refresh_token_finish, await_topic_once, hr, hp, hstA, happ, sget]

theorem refresh_finish_partial (st : Ctrl) (env : Env) (payload : String)
    (fields : List (String × JVal)) (a1 : String)
    (hr : env.reply (tokenTopicOf st) = ReplyEv.msg payload)
    (hp : jsonLoads payload = some (JVal.jobj fields))
    (k1 : dictGet fields "accesstoken" = some (JVal.jstr a1))
    (k2 : dictGet fields "accesstoken_time" = none) :
    (refresh_token_finish st env).res = Except.error (PErr.keyError "accesstoken_time")
    ∧ (refresh_token_finish st env).st.accesstoken = some a1
    ∧ (refresh_token_finish st env).st.accesstoken_time = st.accesstoken_time
    ∧ (refresh_token_finish st env).st.accesstoken_duration_day = st.accesstoken_duration_day
    ∧ (refresh_token_finish st env).st.refreshtoken = st.refreshtoken
    ∧ (refresh_token_finish st env).st.refreshtoken_time = st.refreshtoken_time
    ∧ (refresh_token_finish st env).st.refreshtoken_duration_day = st.refreshtoken_duration_day
    ∧ (refresh_token_finish st env).st.username = st.username
    ∧ (refresh_token_finish st env).st.password = st.password
    ∧ (refresh_token_finish st env).st.client_id = st.client_id := by
  obtain ⟨s1, hs1⟩ := subscribeOp_st st (tokenTopicOf st)
  obtain ⟨s2, hs2⟩ := subscribeOp_st ({ st with subscriptions := s1 } : Ctrl) (tokenTopicOf st)
  have hstA : (subscribeOp (subscribeOp st (tokenTopicOf st)).1 (tokenTopicOf st)).1
      = { st with subscriptions := s2 } := by rw [hs1, hs2]
  have g1 : dictGet (dictSet (dictSet (dictSet fields "client_id" (optJ st.client_id))
      "username" (optJ st.username)) "password" (optJ st.password)) "accesstoken"
      = some (JVal.jstr a1) := by
    rw [dictGet_dictSet_ne _ _ _ _ (by decide), dictGet_dictSet_ne _ _ _ _ (by decide),
      dictGet_dictSet_ne _ _ _ _ (by decide)]
    exact k1
  have g2 : dictGet (dictSet (dictSet (dictSet fields "client_id" (optJ st.client_id))
      "username" (optJ st.username)) "password" (optJ st.password)) "accesstoken_time"
      = none := by
    rw [dictGet_dictSet_ne _ _ _ _ (by decide), dictGet_dictSet_ne _ _ _ _ (by decide),
      dictGet_dictSet_ne _ _ _ _ (by decide)]
    exact k2
  have happ := apply_credentials_missing_time ({ st with subscriptions := s2 } : Ctrl) _
    a1 g1 g2
  refine ⟨?_, ?_, ?_, ?_, ?_, ?_, ?_, ?_, ?_, ?_⟩ <;>
    simp [refresh_token_finish, await_topic_once, hr, hp, hstA, happ]

/-- C3 (amended): with the asserted identity stored and the broker
reachable, refresh_token behaves as follows.  On an await timeout or a
reply that is not valid JSON it fails and leaves every stored credential
field unchanged.  On a valid JSON object reply carrying all six token
fields with their expected types it replaces all six token fields together,
marks the session authenticated, and returns the new access token — but
username, password and client id are never taken from the reply (a
reissued username or password in the reply is ignored).  On a valid JSON
object reply that carries an access token but lacks accesstoken_time it
fails with a KeyError after having already overwritten the stored access
token, leaving the remaining fields unchanged: the refresh is not atomic
for such replies. -/
theorem C3_refresh_update_behaviour (st : Ctrl) (env : Env)
    (h1 : truthyS st.client_id = true) (h2 : truthyS st.username = true)
    (h3 : truthyS st.refreshtoken = true) (hok : env.connectOk = true) :
    (env.reply (tokenTopicOf st) = ReplyEv.timeout →
      (refresh_token st env).res = Except.error PErr.awaitTimeout
        ∧ credFields (refresh_token st env).st = credFields st)
    ∧ (∀ payload, env.reply (tokenTopicOf st) = ReplyEv.msg payload →
        jsonLoads payload = none →
      (refresh_token st env).res = Except.error PErr.jsonDecodeError
        ∧ credFields (refresh_token st env).st = credFields st)
    ∧ (∀ (payload : String) (fields : List (String × JVal)) (a1 a4 : String)
        (a2 a3 a5 a6 : Nat),
        env.reply (tokenTopicOf st) = ReplyEv.msg payload →
        jsonLoads payload = some (JVal.jobj fields) →
        dictGet fields "accesstoken" = some (JVal.jstr a1) →
        dictGet fields "accesstoken_time" = some (JVal.jnum a2) →
        dictGet fields "accesstoken_duration_day" = some (JVal.jnum a3) →
        dictGet fields "refreshtoken" = some (JVal.jstr a4) →
        dictGet fields "refreshtoken_time" = some (JVal.jnum a5) →
        dictGet fields "refreshtoken_duration_day" = some (JVal.jnum a6) →
      (refresh_token st env).res = Except.ok a1
        ∧ (refresh_token st env).st.accesstoken = some a1
        ∧ (refresh_token st env).st.accesstoken_time = some a2
        ∧ (refresh_token st env).st.accesstoken_duration_day = some a3
        ∧ (refresh_token st env).st.refreshtoken = some a4
        ∧ (refresh_token st env).st.refreshtoken_time = some a5
        ∧ (refresh_token st env).st.refreshtoken_duration_day = some a6
        ∧ (refresh_token st env).st.username = st.username
        ∧ (refresh_token st env).st.password = st.password
        ∧ (refresh_token st env).st.client_id = st.client_id
        ∧ (refresh_token st env).st.authenticated = true)
    ∧ (∀ (payload : String) (fields : List (String × JVal)) (a1 : String),
        env.reply (tokenTopicOf st) = ReplyEv.msg payload →
        jsonLoads payload = some (JVal.jobj fields) →
        dictGet fields "accesstoken" = some (JVal.jstr a1) →
        dictGet fields "accesstoken_time" = none →
      (refresh_token st env).res = Except.error (PErr.keyError "accesstoken_time")
        ∧ (refresh_token st env).st.accesstoken = some a1
        ∧ (refresh_token st env).st.accesstoken_time = st.accesstoken_time
        ∧ (refresh_token st env).st.refreshtoken = st.refreshtoken
        ∧ (refresh_token st env).st.username = st.username) := by
  obtain ⟨hres, hcred, htopic⟩ := refresh_token_connect_spec st env h1 h2 h3 hok
  have htt : tokenTopicOf (refresh_token_connect st env).st = tokenTopicOf st := by
    unfold tokenTopicOf
    rw [htopic]
  have hrun_res : (refresh_token st env).res
      = (refresh_token_finish (refresh_token_connect st env).st env).res := by
    simp [refresh_token, hres]
  have hrun_st : (refresh_token st env).st
      = (refresh_token_finish (refresh_token_connect st env).st env).st := by
    simp [refresh_token, hres]
  have e_att : (refresh_token_connect st env).st.accesstoken_time = st.accesstoken_time :=
    congrArg (fun x => x.2.1) hcred
  have e_rt : (refresh_token_connect st env).st.refreshtoken = st.refreshtoken :=
    congrArg (fun x => x.2.2.2.1) hcred
  have e_u : (refresh_token_connect st env).st.username = st.username :=
    congrArg (fun x => x.2.2.2.2.2.2.1) hcred
  have e_p : (refresh_token_connect st env).st.password = st.password :=
    congrArg (fun x => x.2.2.2.2.2.2.2.1) hcred
  have e_cid : (refresh_token_connect st env).st.client_id = st.client_id :=
    congrArg (fun x => x.2.2.2.2.2.2.2.2) hcred
  refine ⟨?_, ?_, ?_, ?_⟩
  · intro hr
    obtain ⟨f1, f2⟩ := refresh_finish_timeout (refresh_token_connect st env).st env
      (htt.symm ▸ hr)
    exact ⟨hrun_res.trans f1, ((congrArg credFields hrun_st).trans f2).trans hcred⟩
  · intro payload hr hbad
    obtain ⟨f1, f2⟩ := refresh_finish_badjson (refresh_token_connect st env).st env payload
      (htt.symm ▸ hr) hbad
    exact ⟨hrun_res.trans f1, ((congrArg credFields hrun_st).trans f2).trans hcred⟩
  · intro payload fields a1 a4 a2 a3 a5 a6 hr hp k1 k2 k3 k4 k5 k6
    have F := refresh_finish_success (refresh_token_connect st env).st env payload fields
      a1 a4 a2 a3 a5 a6 (htt.symm ▸ hr) hp k1 k2 k3 k4 k5 k6
    refine ⟨hrun_res.trans F.1,
      (congrArg Ctrl.accesstoken hrun_st).trans F.2.1,
      (congrArg Ctrl.accesstoken_time hrun_st).trans F.2.2.1,
      (congrArg Ctrl.accesstoken_duration_day hrun_st).trans F.2.2.2.1,
      (congrArg Ctrl.refreshtoken hrun_st).trans F.2.2.2.2.1,
      (congrArg Ctrl.refreshtoken_time hrun_st).trans F.2.2.2.2.2.1,
      (congrArg Ctrl.refreshtoken_duration_day hrun_st).trans F.2.2.2.2.2.2.1,
      ((congrArg Ctrl.username hrun_st).trans F.2.2.2.2.2.2.2.1).trans e_u,
      ((congrArg Ctrl.password hrun_st).trans F.2.2.2.2.2.2.2.2.1).trans e_p,
      ((congrArg Ctrl.client_id hrun_st).trans F.2.2.2.2.2.2.2.2.2.1).trans e_cid,
      (congrArg Ctrl.authenticated hrun_st).trans F.2.2.2.2.2.2.2.2.2.2⟩
  · intro payload fields a1 hr hp k1 k2
    have G := refresh_finish_partial (refresh_token_connect st env).st env payload fields a1
      (htt.symm ▸ hr) hp k1 k2
    exact ⟨hrun_res.trans G.1,
      (congrArg Ctrl.accesstoken hrun_st).trans G.2.1,
      ((congrArg Ctrl.accesstoken_time hrun_st).trans G.2.2.1).trans e_att,
      ((congrArg Ctrl.refreshtoken hrun_st).trans G.2.2.2.2.1).trans e_rt,
      ((congrArg Ctrl.username hrun_st).trans G.2.2.2.2.2.2.2.1).trans e_u⟩

set_option maxRecDepth 8000 in
/-- C3 witness: a complete token reply replaces all six token fields, and
the reissued-looking username field is not taken from anywhere but the
stored identity. -/
theorem C3_refresh_update_behaviour_witness :
    (refresh_token stPaired envRefreshFull).res = Except.ok "A2"
    ∧ (refresh_token stPaired envRefreshFull).st.accesstoken = some "A2"
    ∧ (refresh_token stPaired envRefreshFull).st.refreshtoken = some "R2"
    ∧ (refresh_token stPaired envRefreshFull).st.username = some "his$1" := by
  have H := (C3_refresh_update_behaviour stPaired envRefreshFull rfl rfl rfl rfl).2.2.1
    "\x7b\"accesstoken\":\"A2\",\"accesstoken_time\":2000,\"accesstoken_duration_day\":7,\"refreshtoken\":\"R2\",\"refreshtoken_time\":2000,\"refreshtoken_duration_day\":30\x7d"
    [("accesstoken", JVal.jstr "A2"), ("accesstoken_time", JVal.jnum 2000),
     ("accesstoken_duration_day", JVal.jnum 7), ("refreshtoken", JVal.jstr "R2"),
     ("refreshtoken_time", JVal.jnum 2000), ("refreshtoken_duration_day", JVal.jnum 30)]
    "A2" "R2" 2000 7 2000 30 rfl rfl rfl rfl rfl rfl rfl rfl
  exact ⟨H.1, H.2.1, H.2.2.2.2.1, H.2.2.2.2.2.2.2.1⟩

/-- C3 counterexample: a valid JSON reply carrying an access token and a
reissued username but no accesstoken_time makes refresh_token fail with a
KeyError while the stored access token has already been overwritten from
"A" to "A2" (a partial update), remaining fields stale, and the reissued
username ignored — refuting the claimed atomicity. -/
theorem C3_partial_update_on_missing_key :
    (refresh_token stPaired envRefreshPartial).res
      = Except.error (PErr.keyError "accesstoken_time")
    ∧ (refresh_token stPaired envRefreshPartial).st.accesstoken = some "A2"
    ∧ (refresh_token stPaired envRefreshPartial).st.accesstoken_time = some 1000
    ∧ (refresh_token stPaired envRefreshPartial).st.refreshtoken = some "R"
    ∧ (refresh_token stPaired envRefreshPartial).st.username = some "his$1"
    ∧ stPaired.accesstoken = some "A" :=
  ⟨rfl, rfl, rfl, rfl, rfl, rfl⟩

/-! ## C6 and C9 -/

/-- C6 (amended): send_key, change_source, change_volume and launch_app
(with an app list entry that resolves to a truthy appId and url) all
return False and publish no command when the state query returns no state
(None) or a state whose statetype is fake_sleep_0, and also when it
returns the empty JSON object, a state that is not fake_sleep_0 but falsy
in Python; in every non-empty, non-sleeping state each operation publishes
its command (over a healthy session) and returns True. -/
theorem C6_device_off_short_circuit (st : Ctrl) (env : Env)
    (key : String) (sid : JVal) (vol : Int) (name : String) (apps : List JVal)
    (idv urlv : JVal) (rn : String)
    (hne : apps ≠ [])
    (hfind : findAppLoop apps name = Except.ok (some (some idv, some urlv, rn)))
    (hid : jTruthy idv = true) (hurl : jTruthy urlv = true) :
    (∀ st1 e1, get_tv_state st env = { res := Except.ok none, st := st1, effs := e1 } →
      send_key st env key = { res := Except.ok false, st := st1, effs := e1 }
      ∧ change_source st env sid = { res := Except.ok false, st := st1, effs := e1 }
      ∧ change_volume st env vol = { res := Except.ok false, st := st1, effs := e1 }
      ∧ launch_app st env name (some (JVal.jarr apps))
          = { res := Except.ok false, st := st1, effs := e1 })
    ∧ (∀ st1 e1 fields, get_tv_state st env
          = { res := Except.ok (some (JVal.jobj fields)), st := st1, effs := e1 } →
        pyEqStr (dictGet fields "statetype") "fake_sleep_0" = true →
      send_key st env key = { res := Except.ok false, st := st1, effs := e1 }
      ∧ change_source st env sid = { res := Except.ok false, st := st1, effs := e1 }
      ∧ change_volume st env vol = { res := Except.ok false, st := st1, effs := e1 }
      ∧ launch_app st env name (some (JVal.jarr apps))
          = { res := Except.ok false, st := st1, effs := e1 })
    ∧ (∀ st1 e1, get_tv_state st env
          = { res := Except.ok (some (JVal.jobj [])), st := st1, effs := e1 } →
      send_key st env key = { res := Except.ok false, st := st1, effs := e1 }
      ∧ change_source st env sid = { res := Except.ok false, st := st1, effs := e1 }
      ∧ change_volume st env vol = { res := Except.ok false, st := st1, effs := e1 }
      ∧ launch_app st env name (some (JVal.jarr apps))
          = { res := Except.ok false, st := st1, effs := e1 })
    ∧ (∀ st1 e1 fields, get_tv_state st env
          = { res := Except.ok (some (JVal.jobj fields)), st := st1, effs := e1 } →
        pyEqStr (dictGet fields "statetype") "fake_sleep_0" = false → fields ≠ [] →
        truthyS st1.accesstoken = true → truthyN st1.accesstoken_time = true →
        truthyN st1.accesstoken_duration_day = true →
        truthyS st1.username = true → truthyS st1.client_id = true →
        env.now ≤ st1.accesstoken_time.getD 0
          + st1.accesstoken_duration_day.getD 0 * 86400 →
        st1.is_connected = true → st1.client.isSome = true →
      send_key st env key
        = { res := Except.ok true, st := st1,
            effs := e1 ++ [Eff.publish (fstr st1.topicRemoBasepath ++ "actions/sendkey")
              (some key)] }
      ∧ change_source st env sid
        = { res := Except.ok true, st := st1,
            effs := e1 ++ [Eff.publish (fstr st1.topicTVUIBasepath ++ "actions/changesource")
              (some (pyDumps (JVal.jobj [("sourceid", sid)])))] }
      ∧ change_volume st env vol
        = { res := Except.ok true, st := st1,
            effs := e1 ++ [Eff.publish (fstr st1.topicTVPSBasepath ++ "actions/changevolume")
              (some (toString vol))] }
      ∧ launch_app st env name (some (JVal.jarr apps))
        = { res := Except.ok true, st := st1,
            effs := e1 ++ [Eff.publish (fstr st1.topicTVUIBasepath ++ "actions/launchapp")
              (some (pyDumps (JVal.jobj [("appId", idv), ("name", JVal.jstr rn),
                ("url", urlv)])))] }) := by
  have hne2 : apps.isEmpty = false := by simpa using hne
  have hlist : optTruthy (some (JVal.jarr apps)) = true := by
    simp [optTruthy, jTruthy, hne2]
  have hidv : optTruthy (some idv) = true := by simp [optTruthy, hid]
  have hurlv : optTruthy (some urlv) = true := by simp [optTruthy, hurl]
  have hnone : optTruthy none = false := rfl
  have hempt : optTruthy (some (JVal.jobj [])) = false := rfl
  refine ⟨?_, ?_, ?_, ?_⟩
  · intro st1 e1 hstate
    refine ⟨?_, ?_, ?_, ?_⟩
    · simp [send_key, hstate, offCheck, hnone]
    · simp [change_source, hstate, offCheck, hnone]
    · simp [change_volume, hstate, offCheck, hnone]
    · simp [launch_app, hlist, hfind, hidv, hurlv, hstate, offCheck, hnone]
  · intro st1 e1 fields hstate hsleep
    have hnef : fields ≠ [] := by
      intro hc
      subst hc
      simp [pyEqStr, dictGet] at hsleep
    have hnef2 : fields.isEmpty = false := by simpa using hnef
    have hfst : optTruthy (some (JVal.jobj fields)) = true := by
      simp [optTruthy, jTruthy, hnef2]
    refine ⟨?_, ?_, ?_, ?_⟩
    · simp [send_key, hstate, offCheck, hfst, hsleep]
    · simp [change_source, hstate, offCheck, hfst, hsleep]
    · simp [change_volume, hstate, offCheck, hfst, hsleep]
    · simp [launch_app, hlist, hfind, hidv, hurlv, hstate, offCheck, hfst, hsleep]
  · intro st1 e1 hstate
    refine ⟨?_, ?_, ?_, ?_⟩
    · simp [send_key, hstate, offCheck, hempt]
    · simp [change_source, hstate, offCheck, hempt]
    · simp [change_volume, hstate, offCheck, hempt]
    · simp [launch_app, hlist, hfind, hidv, hurlv, hstate, offCheck, hempt]
  · intro st1 e1 fields hstate hawake hnef g1 g2 g3 g4 g5 gle gconn gcl
    have hnef2 : fields.isEmpty = false := by simpa using hnef
    have hfst : optTruthy (some (JVal.jobj fields)) = true := by
      simp [optTruthy, jTruthy, hnef2]
    refine ⟨?_, ?_, ?_, ?_⟩
    · simp [send_key, hstate, offCheck, hfst, hawake,
        send_command_ready st1 env (fstr st1.topicRemoBasepath ++ "actions/sendkey")
          (some key) g1 g2 g3 g4 g5 gle gconn gcl]
    · simp [change_source, hstate, offCheck, hfst, hawake,
        send_command_ready st1 env (fstr st1.topicTVUIBasepath ++ "actions/changesource")
          (some (pyDumps (JVal.jobj [("sourceid", sid)]))) g1 g2 g3 g4 g5 gle gconn gcl]
    · simp [change_volume, hstate, offCheck, hfst, hawake,
        send_command_ready st1 env (fstr st1.topicTVPSBasepath ++ "actions/changevolume")
          (some (toString vol)) g1 g2 g3 g4 g5 gle gconn gcl]
    · simp [launch_app, hlist, hfind, hidv, hurlv, hstate, offCheck, hfst, hawake,
        send_command_ready st1 env (fstr st1.topicTVUIBasepath ++ "actions/launchapp")
          (some (pyDumps (JVal.jobj [("appId", idv), ("name", JVal.jstr rn), ("url", urlv)])))
          g1 g2 g3 g4 g5 gle gconn gcl]

/-- C6 witness: with a fake_sleep_0 state reply send_key and launch_app
return False and publish only the state query; with a non-sleeping state
send_key publishes the key and returns True. -/
theorem C6_device_off_short_circuit_witness :
    send_key stPaired (envStateReply "\x7b\"statetype\": \"fake_sleep_0\"\x7d") "KEY_UP"
      = { res := Except.ok false,
          st := { stPaired with
            subscriptions := ["/remoteapp/mobile/broadcast/ui_service/state"] },
          effs := [Eff.subscribe "/remoteapp/mobile/broadcast/ui_service/state",
            Eff.publish "/remoteapp/tv/ui_service/CID/actions/gettvstate" none] }
    ∧ launch_app stPaired (envStateReply "\x7b\"statetype\": \"fake_sleep_0\"\x7d") "Netflix"
        (some (JVal.jarr [JVal.jobj [("name", JVal.jstr "NETFLIX"), ("appId", JVal.jnum 7),
          ("url", JVal.jstr "netflix://x")]]))
      = { res := Except.ok false,
          st := { stPaired with
            subscriptions := ["/remoteapp/mobile/broadcast/ui_service/state"] },
          effs := [Eff.subscribe "/remoteapp/mobile/broadcast/ui_service/state",
            Eff.publish "/remoteapp/tv/ui_service/CID/actions/gettvstate" none] }
    ∧ send_key stPaired (envStateReply "\x7b\"statetype\": \"fake_wakeup\"\x7d") "KEY_UP"
      = { res := Except.ok true,
          st := { stPaired with
            subscriptions := ["/remoteapp/mobile/broadcast/ui_service/state"] },
          effs := [Eff.subscribe "/remoteapp/mobile/broadcast/ui_service/state",
            Eff.publish "/remoteapp/tv/ui_service/CID/actions/gettvstate" none,
            Eff.publish "/remoteapp/tv/remote_service/CID/actions/sendkey" (some "KEY_UP")] } := by
  refine ⟨?_, ?_, ?_⟩
  · exact ((C6_device_off_short_circuit stPaired
      (envStateReply "\x7b\"statetype\": \"fake_sleep_0\"\x7d")
      "KEY_UP" (JVal.jnum 1) 5 "Netflix"
      [JVal.jobj [("name", JVal.jstr "NETFLIX"), ("appId", JVal.jnum 7),
        ("url", JVal.jstr "netflix://x")]]
      (JVal.jnum 7) (JVal.jstr "netflix://x") "NETFLIX"
      (List.cons_ne_nil _ _) rfl rfl (by decide)).2.1
      ({ stPaired with subscriptions := ["/remoteapp/mobile/broadcast/ui_service/state"] })
      [Eff.subscribe "/remoteapp/mobile/broadcast/ui_service/state",
        Eff.publish "/remoteapp/tv/ui_service/CID/actions/gettvstate" none]
      [("statetype", JVal.jstr "fake_sleep_0")] rfl rfl).1
  · exact ((C6_device_off_short_circuit stPaired
      (envStateReply "\x7b\"statetype\": \"fake_sleep_0\"\x7d")
      "KEY_UP" (JVal.jnum 1) 5 "Netflix"
      [JVal.jobj [("name", JVal.jstr "NETFLIX"), ("appId", JVal.jnum 7),
        ("url", JVal.jstr "netflix://x")]]
      (JVal.jnum 7) (JVal.jstr "netflix://x") "NETFLIX"
      (List.cons_ne_nil _ _) rfl rfl (by decide)).2.1
      ({ stPaired with subscriptions := ["/remoteapp/mobile/broadcast/ui_service/state"] })
      [Eff.subscribe "/remoteapp/mobile/broadcast/ui_service/state",
        Eff.publish "/remoteapp/tv/ui_service/CID/actions/gettvstate" none]
      [("statetype", JVal.jstr "fake_sleep_0")] rfl rfl).2.2.2
  · exact ((C6_device_off_short_circuit stPaired
      (envStateReply "\x7b\"statetype\": \"fake_wakeup\"\x7d")
      "KEY_UP" (JVal.jnum 1) 5 "Netflix"
      [JVal.jobj [("name", JVal.jstr "NETFLIX"), ("appId", JVal.jnum 7),
        ("url", JVal.jstr "netflix://x")]]
      (JVal.jnum 7) (JVal.jstr "netflix://x") "NETFLIX"
      (List.cons_ne_nil _ _) rfl rfl (by decide)).2.2.2
      ({ stPaired with subscriptions := ["/remoteapp/mobile/broadcast/ui_service/state"] })
      [Eff.subscribe "/remoteapp/mobile/broadcast/ui_service/state",
        Eff.publish "/remoteapp/tv/ui_service/CID/actions/gettvstate" none]
      [("statetype", JVal.jstr "fake_wakeup")] rfl rfl (List.cons_ne_nil _ _)
      rfl rfl rfl rfl rfl (by decide) rfl rfl).1

/-- C6 counterexample: when getState returns the empty JSON object — a
state whose statetype is not fake_sleep_0 — send_key still returns False
and publishes no command, refuting the claimed "never no-ops otherwise". -/
theorem C6_empty_state_returns_false :
    (get_tv_state stPaired (envStateReply "\x7b\x7d")).res = Except.ok (some (JVal.jobj []))
    ∧ send_key stPaired (envStateReply "\x7b\x7d") "KEY_UP"
      = { res := Except.ok false,
          st := { stPaired with
            subscriptions := ["/remoteapp/mobile/broadcast/ui_service/state"] },
          effs := [Eff.subscribe "/remoteapp/mobile/broadcast/ui_service/state",
            Eff.publish "/remoteapp/tv/ui_service/CID/actions/gettvstate" none] }
    ∧ pyEqStr (dictGet ([] : List (String × JVal)) "statetype") "fake_sleep_0" = false :=
  ⟨rfl, rfl, rfl⟩

/-- C9: launch_app resolves the app by comparing names uppercased (so the
comparison is case-insensitive); with a supplied non-empty app list in
which no entry matches it returns False, publishes nothing and leaves the
state unchanged; when an entry matches, its appId and url values and its
stored name are what the launchapp command carries. -/
theorem C9_launch_app_resolution (st st1 : Ctrl) (env : Env) (e1 : List Eff)
    (name : String) (apps : List JVal) (fields : List (String × JVal))
    (idv urlv : JVal) (rn : String)
    (hne : apps ≠ [])
    (hstate : get_tv_state st env
      = { res := Except.ok (some (JVal.jobj fields)), st := st1, effs := e1 })
    (g1 : truthyS st1.accesstoken = true) (g2 : truthyN st1.accesstoken_time = true)
    (g3 : truthyN st1.accesstoken_duration_day = true)
    (g4 : truthyS st1.username = true) (g5 : truthyS st1.client_id = true)
    (gle : env.now ≤ st1.accesstoken_time.getD 0 + st1.accesstoken_duration_day.getD 0 * 86400)
    (gconn : st1.is_connected = true) (gcl : st1.client.isSome = true) :
    (∀ (nm : String) (idv2 urlv2 : JVal), pyUpper nm = pyUpper name →
      findAppLoop [JVal.jobj [("name", JVal.jstr nm), ("appId", idv2), ("url", urlv2)]] name
        = Except.ok (some (some idv2, some urlv2, nm)))
    ∧ (findAppLoop apps name = Except.ok none →
      launch_app st env name (some (JVal.jarr apps))
        = { res := Except.ok false, st := st, effs := [] })
    ∧ (findAppLoop apps name = Except.ok (some (some idv, some urlv, rn)) →
        jTruthy idv = true → jTruthy urlv = true →
        pyEqStr (dictGet fields "statetype") "fake_sleep_0" = false → fields ≠ [] →
      launch_app st env name (some (JVal.jarr apps))
        = { res := Except.ok true, st := st1,
            effs := e1 ++ [Eff.publish (fstr st1.topicTVUIBasepath ++ "actions/launchapp")
              (some (pyDumps (JVal.jobj [("appId", idv), ("name", JVal.jstr rn),
                ("url", urlv)])))] }) := by
  have hne2 : apps.isEmpty = false := by simpa using hne
  refine ⟨?_, ?_, ?_⟩
  · intro nm idv2 urlv2 hnm
    simp [findAppLoop, dictGet, List.find?, hnm]
  · intro hfind
    simp [launch_app, optTruthy, jTruthy, hne2, hfind]
  · intro hfind hid hurl hawake hnef
    have hnef2 : fields.isEmpty = false := by simpa using hnef
    have hlist : optTruthy (some (JVal.jarr apps)) = true := by
      simp [optTruthy, jTruthy, hne2]
    have hidv : optTruthy (some idv) = true := by simp [optTruthy, hid]
    have hurlv : optTruthy (some urlv) = true := by simp [optTruthy, hurl]
    have hfst : optTruthy (some (JVal.jobj fields)) = true := by
      simp [optTruthy, jTruthy, hnef2]
    simp [launch_app, hlist, hidv, hurlv, hfind, hstate, offCheck, hfst, hawake,
      send_command_ready st1 env (fstr st1.topicTVUIBasepath ++ "actions/launchapp")
        (some (pyDumps (JVal.jobj [("appId", idv), ("name", JVal.jstr rn), ("url", urlv)])))
        g1 g2 g3 g4 g5 gle gconn gcl]

/-- C9 witness: "Netflix" matches an entry named "NETFLIX" and launches it
with that entry's appId and url; with a list holding only "YouTube" the
call returns False and publishes nothing. -/
theorem C9_launch_app_resolution_witness :
    launch_app stPaired (envStateReply "\x7b\"statetype\": \"fake_wakeup\"\x7d") "Netflix"
        (some (JVal.jarr [JVal.jobj [("name", JVal.jstr "NETFLIX"), ("appId", JVal.jnum 7),
          ("url", JVal.jstr "netflix://x")]]))
      = { res := Except.ok true,
          st := { stPaired with
            subscriptions := ["/remoteapp/mobile/broadcast/ui_service/state"] },
          effs := [Eff.subscribe "/remoteapp/mobile/broadcast/ui_service/state",
            Eff.publish "/remoteapp/tv/ui_service/CID/actions/gettvstate" none,
            Eff.publish "/remoteapp/tv/ui_service/CID/actions/launchapp"
              (some "\x7b\"appId\": 7, \"name\": \"NETFLIX\", \"url\": \"netflix://x\"\x7d")] }
    ∧ launch_app stPaired (envStateReply "\x7b\"statetype\": \"fake_wakeup\"\x7d") "Netflix"
        (some (JVal.jarr [JVal.jobj [("name", JVal.jstr "YouTube"), ("appId", JVal.jnum 1),
          ("url", JVal.jstr "u")]]))
      = { res := Except.ok false, st := stPaired, effs := [] } := by
  constructor
  · exact ((C9_launch_app_resolution stPaired
      ({ stPaired with subscriptions := ["/remoteapp/mobile/broadcast/ui_service/state"] })
      (envStateReply "\x7b\"statetype\": \"fake_wakeup\"\x7d")
      [Eff.subscribe "/remoteapp/mobile/broadcast/ui_service/state",
        Eff.publish "/remoteapp/tv/ui_service/CID/actions/gettvstate" none]
      "Netflix"
      [JVal.jobj [("name", JVal.jstr "NETFLIX"), ("appId", JVal.jnum 7),
        ("url", JVal.jstr "netflix://x")]]
      [("statetype", JVal.jstr "fake_wakeup")] (JVal.jnum 7) (JVal.jstr "netflix://x")
      "NETFLIX" (List.cons_ne_nil _ _) rfl rfl rfl rfl rfl rfl (by decide) rfl rfl).2.2
      rfl rfl rfl (by decide) (List.cons_ne_nil _ _))
  · exact ((C9_launch_app_resolution stPaired
      ({ stPaired with subscriptions := ["/remoteapp/mobile/broadcast/ui_service/state"] })
      (envStateReply "\x7b\"statetype\": \"fake_wakeup\"\x7d")
      [Eff.subscribe "/remoteapp/mobile/broadcast/ui_service/state",
        Eff.publish "/remoteapp/tv/ui_service/CID/actions/gettvstate" none]
      "Netflix"
      [JVal.jobj [("name", JVal.jstr "YouTube"), ("appId", JVal.jnum 1),
        ("url", JVal.jstr "u")]]
      [("statetype", JVal.jstr "fake_wakeup")] (JVal.jnum 1) (JVal.jstr "u")
      "YouTube" (List.cons_ne_nil _ _) rfl rfl rfl rfl rfl rfl (by decide) rfl rfl).2.1 rfl)

end Hisense
